import Mathlib

/-!
Verification development for the one-api-hub browser extension core:
the site-adapter registry, the concrete OneApi / Cubence adapters and the
account-manager orchestrator.  TypeScript is shallowly embedded in Lean:

* JS `number` is modelled as `ℚ` (the code only manipulates finite decimal
  values; `NaN` is represented by `Option.none` where it can occur);
* fallible code (`throw` / rejected promises) is modelled with `Except`;
* every remote HTTP boundary (the `fetch`-based service helpers) is
  modelled by an explicit server/environment argument giving the response
  of each endpoint; adapter operations additionally return the number of
  network requests they issued, so "no network call happened" is a
  provable statement;
* JS `Map` (insertion ordered) is modelled as an association list.
-/

/-- Association-list lookup, returning the value of the first pair whose key
matches.  This models lookup in a JS `Map` represented as an insertion-ordered
association list. -/
def alookup {α : Type} (key : String) : List (String × α) → Option α
  | [] => none
  | (k, v) :: rest => if k = key then some v else alookup key rest

/-- JS `x || d` for an optional number `x` (`undefined` ↦ `d`, `0` ↦ `d`,
otherwise `x`).  For the uses in this code base `d = 0`, where the operator
coincides with `Option.getD 0` on `ℚ`. -/
def jsOrNum (x : Option ℚ) (d : ℚ) : ℚ :=
  match x with
  | none => d
  | some v => if v = 0 then d else v

/-- JS `s || d` for an optional string (`undefined` and `""` are falsy). -/
def jsOrStr (x : Option String) (d : String) : String :=
  match x with
  | none => d
  | some v => if v = "" then d else v

/-- JS `xs || []` for an optional list. -/
def jsOrList {α : Type} (x : Option (List α)) : List α :=
  match x with
  | none => []
  | some v => v

/-- `String.prototype.trim`, over the character list (kernel-computable). -/
def strTrim (s : String) : String :=
  String.mk (((s.toList.dropWhile Char.isWhitespace).reverse.dropWhile Char.isWhitespace).reverse)

/-- `String.prototype.toLowerCase` (ASCII), over the character list. -/
def strToLower (s : String) : String :=
  String.mk (s.toList.map Char.toLower)

/-- Whether the first character list is an initial segment of the second. -/
def startsWithChars : List Char → List Char → Bool
  | [], _ => true
  | _ :: _, [] => false
  | p :: ps, c :: cs => p = c && startsWithChars ps cs

/-- Whether a character list occurs anywhere inside another. -/
def listContainsChars (pat : List Char) : List Char → Bool
  | [] => pat.isEmpty
  | c :: cs => startsWithChars pat (c :: cs) || listContainsChars pat cs

/-- Substring test, used to model JS `String.prototype.includes`. -/
def strContains (s pat : String) : Bool :=
  listContainsChars pat.toList s.toList

/-- Floor of a rational as an integer, used to model JS `Math.floor`. -/
def ratFloor (q : ℚ) : ℤ :=
  ⌊q⌋

/-- Ceiling of a rational as an integer (`⌈q⌉ = -⌊-q⌋`), used to model JS
`Math.ceil`. -/
def ratCeil (q : ℚ) : ℤ :=
  -ratFloor (-q)

/-- JS `Math.round`: round half up, i.e. `⌊x + 0.5⌋`. -/
def jsRound (q : ℚ) : ℤ :=
  ratFloor (q + 1/2)

/-- Drop the trailing characters of a string satisfying `p`. -/
def dropRightWhileStr (s : String) (p : Char → Bool) : String :=
  String.mk ((s.toList.reverse.dropWhile p).reverse)

/-- From `SiteAdapterRegistry.normalizeSiteType`:
`(siteType || "").trim().toLowerCase()`. -/
def normalizeSiteType (siteType : String) : String :=
  strToLower (strTrim siteType)

/-- From `SiteAdapterRegistry.normalizeSiteUrl` (also duplicated in
`CubenceAdapter.ts`): `(siteUrl || "").trim().replace(/\/+$/, "")`. -/
def normalizeSiteUrl (siteUrl : String) : String :=
  dropRightWhileStr (strTrim siteUrl) (fun c => c = '/')

/-! ## JS error values

Error objects thrown by the embedded code.  `apiError` models the service
layer's `ApiError (message, statusCode?, endpoint?)`; `typeError` models a
built-in `TypeError` (the shape thrown by a failed `fetch`); `error` models a
plain `Error`. -/

inductive JsError : Type
  | apiError (message : String) (statusCode : Option ℕ) (endpoint : String)
  | typeError (message : String)
  | error (message : String)
deriving DecidableEq, Repr

/-- Message carried by a JS error value (`error.message`). -/
def JsError.message : JsError → String
  | .apiError m _ _ => m
  | .typeError m => m
  | .error m => m

/-- Result of `determineHealthStatus`: a health-status string
(`"healthy" | "warning" | "error" | "unknown"`) plus a message. -/
structure HealthCheckResult : Type where
  status : String
  message : String
deriving DecidableEq, Repr

/-- From `determineHealthStatus` in the service layer: classifies a caught
error into a health status.  `ApiError` with a truthy `statusCode` ↦
`"warning"`; other `ApiError` ↦ `"unknown"`; `TypeError` whose message
mentions `fetch` ↦ `"error"`; anything else ↦ `"unknown"` with
`error?.message || "未知错误"`. -/
def determineHealthStatus : JsError → HealthCheckResult
  | .apiError msg statusCode _ =>
      match statusCode with
      | some code =>
          if code ≠ 0 then
            { status := "warning", message := "HTTP " ++ toString code ++ ": " ++ msg }
          else
            { status := "unknown", message := msg }
      | none => { status := "unknown", message := msg }
  | .typeError msg =>
      if strContains msg "fetch" then
        { status := "error", message := "网络连接失败" }
      else
        { status := "unknown", message := jsOrStr (some msg) "未知错误" }
  | .error msg => { status := "unknown", message := jsOrStr (some msg) "未知错误" }

/-! ## Capability and adapter data model (`src/adapters/types.ts`) -/

inductive AdapterCapability : Type
  | AUTO_DETECT
  | BALANCE
  | USAGE_STATS
  | TOKEN_MANAGEMENT
  | MODEL_LIST
  | MODEL_PRICING
deriving DecidableEq, Repr

/-- The tagged `SiteAuth` union.  `userId` fields are JS numbers. -/
inductive SiteAuth : Type
  | oneApiToken (userId : ℚ) (accessToken : String)
  | apiKey (key : String)
  | cookie (userId : Option ℚ)
deriving DecidableEq, Repr

/-- The `auth.kind` discriminant string of a `SiteAuth` value. -/
def SiteAuth.kind : SiteAuth → String
  | .oneApiToken _ _ => "one-api-token"
  | .apiKey _ => "api-key"
  | .cookie _ => "cookie"

/-- `SiteCredentials` (the open `adapterConfig` bag is not read by any of the
modelled logic and is omitted). -/
structure SiteCredentials : Type where
  siteUrl : String
  auth : SiteAuth
deriving DecidableEq, Repr

structure BalanceDescriptor : Type where
  rawUnit : String
  conversionFactor : ℚ
deriving DecidableEq, Repr

structure SiteAdapterMetadata : Type where
  id : String
  name : String
  version : String
  supportedSiteTypes : List String
  capabilities : List AdapterCapability
  balance : Option BalanceDescriptor
deriving DecidableEq, Repr

structure BalanceInfo : Type where
  rawBalance : ℚ
  rawUnit : String
  conversionFactor : Option ℚ
  balanceUSD : Option ℚ
deriving DecidableEq, Repr

structure UsageStats : Type where
  rawConsumption : ℚ
  rawUnit : String
  conversionFactor : Option ℚ
  promptTokens : Option ℚ
  completionTokens : Option ℚ
  requestCount : Option ℚ
deriving DecidableEq, Repr

structure TimeRange : Type where
  start : ℤ
  stop : ℤ
deriving DecidableEq, Repr

/-- The `details` object optionally attached to a `ValidateResult`; the
account manager reads `details?.username` and `details?.user?.username`. -/
structure ValidateDetails : Type where
  username : Option String
  userUsername : Option String
deriving DecidableEq, Repr

structure ValidateResult : Type where
  ok : Bool
  message : Option String
  details : Option ValidateDetails
deriving DecidableEq, Repr

structure AutoDetectData : Type where
  username : String
  accessToken : String
  userId : String
  exchangeRate : Option ℚ
deriving DecidableEq, Repr

/-- `AutoDetectResult`; `detailedError` is an opaque classification payload,
modelled as a string. -/
structure AutoDetectResult : Type where
  success : Bool
  data : Option AutoDetectData
  error : Option String
  detailedError : Option String
deriving DecidableEq, Repr

/-- Outcome of awaiting an adapter's `autoDetectAccount`: the promise either
resolves to an `AutoDetectResult` or rejects with an error. -/
inductive AutoDetectOutcome : Type
  | resolved (r : AutoDetectResult)
  | thrown (e : JsError)
deriving DecidableEq, Repr

/-! ## Adapter registry (`src/adapters/SiteAdapterRegistry.ts`)

For registration-time validation only the adapter's metadata and which
optional methods are present matter, so an adapter is modelled by its
metadata plus one presence flag per optional method. -/

structure AdapterShape : Type where
  metadata : SiteAdapterMetadata
  hasAutoDetectAccount : Bool
  hasGetAccountBalance : Bool
  hasGetUsageStats : Bool
  hasGetApiTokens : Bool
  hasCreateApiToken : Bool
  hasUpdateApiToken : Bool
  hasDeleteApiToken : Bool
  hasGetAvailableModels : Bool
  hasGetModelPricing : Bool
deriving DecidableEq, Repr

/-- `AdapterRegistrationError` (all registration failures are synchronous
throws of this error type). -/
structure AdapterRegistrationError : Type where
  message : String
deriving DecidableEq, Repr

/-- Registry state: the two insertion-ordered maps `adaptersById` and
`adaptersBySiteType`. -/
structure RegistryState : Type where
  adaptersById : List (String × AdapterShape)
  adaptersBySiteType : List (String × AdapterShape)
deriving DecidableEq, Repr

def emptyRegistry : RegistryState :=
  { adaptersById := [], adaptersBySiteType := [] }

/-- From `SiteAdapterRegistry.assertCapabilitiesImplemented`: each declared
capability must be backed by its method(s); TOKEN_MANAGEMENT requires all
four CRUD methods together. -/
def assertCapabilitiesImplemented (adapter : AdapterShape) :
    Except AdapterRegistrationError Unit :=
  let caps := adapter.metadata.capabilities
  let has := fun (cap : AdapterCapability) => caps.contains cap
  if has .AUTO_DETECT ∧ ¬adapter.hasAutoDetectAccount then
    .error ⟨"adapter \x27" ++ adapter.metadata.id ++ "\x27 声明了 AUTO_DETECT 但未实现 autoDetectAccount()"⟩
  else if has .BALANCE ∧ ¬adapter.hasGetAccountBalance then
    .error ⟨"adapter \x27" ++ adapter.metadata.id ++ "\x27 声明了 BALANCE 但未实现 getAccountBalance()"⟩
  else if has .USAGE_STATS ∧ ¬adapter.hasGetUsageStats then
    .error ⟨"adapter \x27" ++ adapter.metadata.id ++ "\x27 声明了 USAGE_STATS 但未实现 getUsageStats()"⟩
  else if has .TOKEN_MANAGEMENT ∧
      ¬(adapter.hasGetApiTokens ∧ adapter.hasCreateApiToken ∧
        adapter.hasUpdateApiToken ∧ adapter.hasDeleteApiToken) then
    .error ⟨"adapter \x27" ++ adapter.metadata.id ++ "\x27 声明了 TOKEN_MANAGEMENT 但未实现全部 CRUD 方法"⟩
  else if has .MODEL_LIST ∧ ¬adapter.hasGetAvailableModels then
    .error ⟨"adapter \x27" ++ adapter.metadata.id ++ "\x27 声明了 MODEL_LIST 但未实现 getAvailableModels()"⟩
  else if has .MODEL_PRICING ∧ ¬adapter.hasGetModelPricing then
    .error ⟨"adapter \x27" ++ adapter.metadata.id ++ "\x27 声明了 MODEL_PRICING 但未实现 getModelPricing()"⟩
  else
    .ok ()

/-- The `for (const siteType of adapter.metadata.supportedSiteTypes)` loop of
`registerAdapter`, threading the `adaptersBySiteType` map. -/
def registerSiteTypes (adapter : AdapterShape) :
    List String → List (String × AdapterShape) →
    Except AdapterRegistrationError (List (String × AdapterShape))
  | [], m => .ok m
  | siteType :: rest, m =>
    let normalized := normalizeSiteType siteType
    match alookup normalized m with
    | some existing =>
        .error ⟨"site_type \x27" ++ normalized ++ "\x27 已被 \x27" ++
          existing.metadata.id ++ "\x27 占用，无法重复注册到 \x27" ++
          adapter.metadata.id ++ "\x27"⟩
    | none => registerSiteTypes adapter rest (m ++ [(normalized, adapter)])

/-- From `SiteAdapterRegistry.registerAdapter`.  A thrown
`AdapterRegistrationError` is an `Except.error`; the in-place mutation that a
mid-loop throw leaves behind in the TS object is not observable through the
claims (which only concern the throw condition and the fully-registered
state) and is not modelled. -/
def registerAdapter (st : RegistryState) (adapter : AdapterShape) :
    Except AdapterRegistrationError RegistryState :=
  let adapterId := adapter.metadata.id
  if adapterId = "" then
    .error ⟨"adapter.metadata.id 不能为空"⟩
  else
    match assertCapabilitiesImplemented adapter with
    | .error e => .error e
    | .ok _ =>
      if (alookup adapterId st.adaptersById).isSome then
        .error ⟨"重复注册 adapter id: " ++ adapterId⟩
      else
        match registerSiteTypes adapter adapter.metadata.supportedSiteTypes st.adaptersBySiteType with
        | .error e => .error e
        | .ok bySite =>
            .ok { adaptersById := st.adaptersById ++ [(adapterId, adapter)]
                  adaptersBySiteType := bySite }

/-- `true` iff `registerAdapter` throws. -/
def registerThrows (st : RegistryState) (adapter : AdapterShape) : Bool :=
  match registerAdapter st adapter with
  | .error _ => true
  | .ok _ => false

/-- Boolean version of "some declared capability lacks its required
method(s)" (the failure condition of `assertCapabilitiesImplemented`). -/
def capabilityMissing (adapter : AdapterShape) : Bool :=
  let has := fun (cap : AdapterCapability) => adapter.metadata.capabilities.contains cap
  (has .AUTO_DETECT && !adapter.hasAutoDetectAccount) ||
  (has .BALANCE && !adapter.hasGetAccountBalance) ||
  (has .USAGE_STATS && !adapter.hasGetUsageStats) ||
  (has .TOKEN_MANAGEMENT &&
    !(adapter.hasGetApiTokens && adapter.hasCreateApiToken &&
      adapter.hasUpdateApiToken && adapter.hasDeleteApiToken)) ||
  (has .MODEL_LIST && !adapter.hasGetAvailableModels) ||
  (has .MODEL_PRICING && !adapter.hasGetModelPricing)

/-! ## Site-type detection (`SiteAdapterRegistry.detectSiteType`)

For detection only the adapter's id and its (optional) `getSiteStatus` probe
matter.  A probe models `await adapter.getSiteStatus(url)`: it either
resolves — with `Bool` recording the truthiness of the resolved status — or
rejects. -/

structure ProbeAdapter : Type where
  id : String
  getSiteStatus : Option (String → Except JsError Bool)

/-- Truthiness of one adapter's probe at a (normalized) URL: adapters
without `getSiteStatus` and probes that reject are non-matches. -/
def probeTruthy (adapter : ProbeAdapter) (url : String) : Bool :=
  match adapter.getSiteStatus with
  | none => false
  | some probe =>
    match probe url with
    | .ok b => b
    | .error _ => false

/-- From `SiteAdapterRegistry.detectSiteType`: normalize the URL, then probe
every registered adapter in registration order (`getAllAdapters()`), skipping
adapters without `getSiteStatus` and treating a throwing probe as a
non-match; return the id of the first truthy probe, else `null`. -/
def detectSiteType (adapters : List ProbeAdapter) (siteUrl : String) : Option String :=
  detectSiteTypeGo (normalizeSiteUrl siteUrl) adapters
where
  detectSiteTypeGo (url : String) : List ProbeAdapter → Option String
    | [] => none
    | adapter :: rest =>
      match adapter.getSiteStatus with
      | none => detectSiteTypeGo url rest
      | some probe =>
        match probe url with
        | .ok b => if b then some adapter.id else detectSiteTypeGo url rest
        | .error _ => detectSiteTypeGo url rest

/-! ## OneApi service layer (`src/services` api service)

The remote HTTP boundary is modelled by `OneApiServer`: the response of the
`/api/user/self` endpoint and, per page number, the response of the
`/api/log/self` pagination endpoint.  The browser-messaging auto-detect
sub-flow (`chrome.runtime.sendMessage` + token creation) is likewise
environment-provided, since no claim depends on its internals. -/

structure LogItem : Type where
  quota : Option ℚ
  prompt_tokens : Option ℚ
  completion_tokens : Option ℚ
deriving DecidableEq, Repr

/-- One `/api/log/self` response (`logData`): `items` and `total` may be
absent. -/
structure LogPage : Type where
  items : Option (List LogItem)
  total : Option ℚ
deriving DecidableEq, Repr

structure TodayUsageData : Type where
  today_quota_consumption : ℚ
  today_prompt_tokens : ℚ
  today_completion_tokens : ℚ
  today_requests_count : ℕ
deriving DecidableEq, Repr

/-- Per-page aggregate (`aggregateUsageData` accumulator). -/
structure UsageAgg : Type where
  today_quota_consumption : ℚ
  today_prompt_tokens : ℚ
  today_completion_tokens : ℚ
deriving DecidableEq, Repr

/-- From `aggregateUsageData`: sum `quota`, `prompt_tokens` and
`completion_tokens` over a page's items (`item.quota || 0` etc.). -/
def aggregateUsageData (items : List LogItem) : UsageAgg :=
  items.foldl
    (fun acc item =>
      { today_quota_consumption := acc.today_quota_consumption + jsOrNum item.quota 0
        today_prompt_tokens := acc.today_prompt_tokens + jsOrNum item.prompt_tokens 0
        today_completion_tokens := acc.today_completion_tokens + jsOrNum item.completion_tokens 0 })
    { today_quota_consumption := 0, today_prompt_tokens := 0, today_completion_tokens := 0 }

/-- `REQUEST_CONFIG.DEFAULT_PAGE_SIZE`. -/
def DEFAULT_PAGE_SIZE : ℕ := 100

/-- `REQUEST_CONFIG.MAX_PAGES`. -/
def MAX_PAGES : ℕ := 100

/-- The `while (currentPage <= REQUEST_CONFIG.MAX_PAGES)` loop of
`fetchTodayUsage`, with `fuel = MAX_PAGES + 1 - currentPage` remaining
iterations.  Returns the loop's outcome together with the number of page
requests issued by this invocation.  `fuel = 0` corresponds to
`currentPage > MAX_PAGES`: the loop exits silently (a `console.warn`) and the
partial sums are returned. -/
def fetchTodayUsageLoop (logPage : ℕ → Except JsError LogPage) :
    ℕ → ℕ → UsageAgg → ℕ → (Except JsError TodayUsageData) × ℕ
  | 0, _currentPage, acc, totalRequestsCount =>
      (.ok { today_quota_consumption := acc.today_quota_consumption
             today_prompt_tokens := acc.today_prompt_tokens
             today_completion_tokens := acc.today_completion_tokens
             today_requests_count := totalRequestsCount }, 0)
  | fuel + 1, currentPage, acc, totalRequestsCount =>
      match logPage currentPage with
      | .error e => (.error e, 1)
      | .ok logData =>
        let items := jsOrList logData.items
        let pageData := aggregateUsageData items
        let acc : UsageAgg :=
          { today_quota_consumption := acc.today_quota_consumption + pageData.today_quota_consumption
            today_prompt_tokens := acc.today_prompt_tokens + pageData.today_prompt_tokens
            today_completion_tokens := acc.today_completion_tokens + pageData.today_completion_tokens }
        let totalRequestsCount := totalRequestsCount + items.length
        let totalPages : ℤ := ratCeil (jsOrNum logData.total 0 / (DEFAULT_PAGE_SIZE : ℚ))
        if (currentPage : ℤ) ≥ totalPages then
          (.ok { today_quota_consumption := acc.today_quota_consumption
                 today_prompt_tokens := acc.today_prompt_tokens
                 today_completion_tokens := acc.today_completion_tokens
                 today_requests_count := totalRequestsCount }, 1)
        else
          let next := fetchTodayUsageLoop logPage fuel (currentPage + 1) acc totalRequestsCount
          (next.1, next.2 + 1)

/-- From `fetchTodayUsage`: paginate `/api/log/self` starting at page 1. -/
def fetchTodayUsage (logPage : ℕ → Except JsError LogPage) :
    (Except JsError TodayUsageData) × ℕ :=
  fetchTodayUsageLoop logPage MAX_PAGES 1
    { today_quota_consumption := 0, today_prompt_tokens := 0, today_completion_tokens := 0 } 0

/-- `/api/user/self` response body (the fields read by `fetchAccountQuota`). -/
structure UserSelfData : Type where
  quota : Option ℚ
deriving DecidableEq, Repr

/-- The remote endpoints used by the OneApi adapter, together with the
environment-provided auto-detect sub-flow. -/
structure OneApiServer : Type where
  userSelf : Except JsError UserSelfData
  logPage : ℕ → Except JsError LogPage
  autoDetect : String → AutoDetectOutcome

/-- From `fetchAccountQuota`: `GET /api/user/self`, returning
`userData.quota || 0`. -/
def fetchAccountQuota (server : OneApiServer) : Except JsError ℚ :=
  server.userSelf.map (fun userData => jsOrNum userData.quota 0)

/-- From `validateAccountConnection`: `fetchAccountQuota` succeeding, with
every thrown error converted to `false`. -/
def validateAccountConnection (server : OneApiServer) : Bool :=
  match fetchAccountQuota server with
  | .ok _ => true
  | .error _ => false

/-! ## OneApi adapter (`src/adapters/OneApiAdapter.ts`) -/

def oneApiMetadata : SiteAdapterMetadata :=
  { id := "one-api"
    name := "OneAPI 系列"
    version := "1.0.0"
    supportedSiteTypes := ["one-api", "new-api", "veloera", "one-hub", "done-hub"]
    capabilities := [.AUTO_DETECT, .BALANCE, .USAGE_STATS, .TOKEN_MANAGEMENT, .MODEL_LIST, .MODEL_PRICING]
    balance := some { rawUnit := "quota_points", conversionFactor := 500000 } }

/-- The kind-mismatch message of all OneApi operations. -/
def oneApiKindMismatchMsg : String := "one-api 适配器需要 one-api-token 鉴权"

/-- From `OneApiAdapter.validateConnection`.  The second component counts
network requests issued. -/
def OneApiAdapter.validateConnection (server : OneApiServer)
    (credentials : SiteCredentials) : ValidateResult × ℕ :=
  match credentials.auth with
  | .oneApiToken _ _ =>
      if validateAccountConnection server then
        ({ ok := true, message := none, details := none }, 1)
      else
        ({ ok := false, message := some "账号连接验证失败", details := none }, 1)
  | _ => ({ ok := false, message := some oneApiKindMismatchMsg, details := none }, 0)

/-- From `OneApiAdapter.getAccountBalance`. -/
def OneApiAdapter.getAccountBalance (server : OneApiServer)
    (credentials : SiteCredentials) : (Except JsError BalanceInfo) × ℕ :=
  match credentials.auth with
  | .oneApiToken _ _ =>
      (match fetchAccountQuota server with
       | .ok rawQuota =>
           (.ok { rawBalance := rawQuota
                  rawUnit := "quota_points"
                  conversionFactor := some 500000
                  balanceUSD := some (rawQuota / 500000) }, 1)
       | .error e => (.error e, 1))
  | _ => (.error (.error oneApiKindMismatchMsg), 0)

/-- From `OneApiAdapter.getUsageStats` (the TS method takes only
`credentials`; the UI's `timeRange` is not consulted, `fetchTodayUsage` is
reused). -/
def OneApiAdapter.getUsageStats (server : OneApiServer)
    (credentials : SiteCredentials) : (Except JsError UsageStats) × ℕ :=
  match credentials.auth with
  | .oneApiToken _ _ =>
      (match fetchTodayUsage server.logPage with
       | (.ok raw, n) =>
           (.ok { rawConsumption := raw.today_quota_consumption
                  rawUnit := "quota_points"
                  conversionFactor := some 500000
                  promptTokens := some raw.today_prompt_tokens
                  completionTokens := some raw.today_completion_tokens
                  requestCount := some (raw.today_requests_count : ℚ) }, n)
       | (.error e, n) => (.error e, n))
  | _ => (.error (.error oneApiKindMismatchMsg), 0)

/-! ## Cubence adapter (`src/adapters/CubenceAdapter.ts`)

`fetchOverview` / `fetchAnalyticsToday` go through `fetchJson` (direct fetch
with a privileged-window fallback); that network plumbing is modelled by the
environment's per-endpoint result. -/

structure CubenceBalanceFields : Type where
  total_balance : Option ℚ
  total_balance_dollar : Option ℚ
deriving DecidableEq, Repr

structure CubenceUserFields : Type where
  username : Option String
deriving DecidableEq, Repr

structure CubenceOverviewData : Type where
  user : Option CubenceUserFields
  balance : Option CubenceBalanceFields
deriving DecidableEq, Repr

structure CubenceOverviewResponse : Type where
  success : Bool
  data : Option CubenceOverviewData
deriving DecidableEq, Repr

/-- `code?: number | string` of the analytics/today response. -/
inductive CubenceCode : Type
  | num (n : ℚ)
  | str (s : String)
deriving DecidableEq, Repr

structure CubenceAnalyticsTodayData : Type where
  today_consumed_quota : Option ℚ
  today_request_count : Option ℚ
  today_tokens : Option ℚ
deriving DecidableEq, Repr

structure CubenceAnalyticsTodayResponse : Type where
  code : Option CubenceCode
  message : Option String
  data : Option CubenceAnalyticsTodayData
deriving DecidableEq, Repr

structure CubenceEnv : Type where
  overview : Except JsError CubenceOverviewResponse
  analyticsToday : Except JsError CubenceAnalyticsTodayResponse

def cubenceMetadata : SiteAdapterMetadata :=
  { id := "cubence"
    name := "Cubence"
    version := "1.0.0"
    supportedSiteTypes := ["cubence"]
    capabilities := [.AUTO_DETECT, .BALANCE, .USAGE_STATS]
    balance := some { rawUnit := "micro_usd", conversionFactor := 1000000 } }

def cubenceKindMismatchMsg : String := "Cubence 适配器需要 cookie 鉴权（浏览器登录态）"

/-- From `CubenceAdapter.validateConnection`. -/
def CubenceAdapter.validateConnection (env : CubenceEnv)
    (credentials : SiteCredentials) : ValidateResult × ℕ :=
  match credentials.auth with
  | .cookie _ =>
      (match env.overview with
       | .error e => ({ ok := false, message := some e.message, details := none }, 1)
       | .ok overview =>
         match overview.data with
         | none => ({ ok := false, message := some "Cubence overview 响应格式异常", details := none }, 1)
         | some d =>
           if ¬overview.success then
             ({ ok := false, message := some "Cubence overview 响应格式异常", details := none }, 1)
           else
             match jsOrStr (d.user.bind (fun u => u.username)) "" with
             | "" => ({ ok := false, message := some "未获取到用户名，可能未登录或 Cookie 已失效", details := none }, 1)
             | username =>
                 ({ ok := true, message := none,
                    details := some { username := some username, userUsername := none } }, 1))
  | _ => ({ ok := false, message := some cubenceKindMismatchMsg, details := none }, 0)

/-- Approximate JS `String(...)` of a rational / code value; used only inside
error-message text that no claim constrains. -/
def ratToJsString (q : ℚ) : String :=
  if q.den = 1 then toString q.num else toString q.num ++ "/" ++ toString q.den

def cubenceCodeString : Option CubenceCode → String
  | none => "undefined"
  | some (.num n) => ratToJsString n
  | some (.str s) => s

/-- From `CubenceAdapter.getAccountBalance`: read the dashboard overview;
`rawBalance` is the integer `total_balance` field when it is a number,
otherwise `Math.round(total_balance_dollar * conversionFactor)` when the
dollar field is a number, otherwise `0`. -/
def CubenceAdapter.getAccountBalance (env : CubenceEnv)
    (credentials : SiteCredentials) : (Except JsError BalanceInfo) × ℕ :=
  match credentials.auth with
  | .cookie _ =>
      (match env.overview with
       | .error e => (.error e, 1)
       | .ok overview =>
         match overview.data with
         | none => (.error (.error "Cubence overview 响应格式异常"), 1)
         | some d =>
           if ¬overview.success then
             (.error (.error "Cubence overview 响应格式异常"), 1)
           else
             let balance := d.balance
             let raw := balance.bind (fun b => b.total_balance)
             let usd := balance.bind (fun b => b.total_balance_dollar)
             let conversionFactor : ℚ := 1000000
             let rawBalance : ℚ :=
               match raw with
               | some r => r
               | none =>
                 match usd with
                 | some u => (jsRound (u * conversionFactor) : ℚ)
                 | none => 0
             (.ok { rawBalance := rawBalance
                    rawUnit := "micro_usd"
                    conversionFactor := some conversionFactor
                    balanceUSD := some (rawBalance / conversionFactor) }, 1))
  | _ => (.error (.error cubenceKindMismatchMsg), 0)

/-- From `CubenceAdapter.getUsageStats`: the analytics/today endpoint; a
present-but-non-200 `code`, or absent `data`, is a failure; an absent `code`
is implicit success. -/
def CubenceAdapter.getUsageStats (env : CubenceEnv)
    (credentials : SiteCredentials) : (Except JsError UsageStats) × ℕ :=
  match credentials.auth with
  | .cookie _ =>
      (match env.analyticsToday with
       | .error e => (.error e, 1)
       | .ok today =>
         let code := today.code
         let okCode : Bool := code = some (.num 200) ∨ code = some (.str "200") ∨ code = none
         match today.data with
         | none =>
             (.error (.error ("Cubence analytics/today 响应异常 (code=" ++ cubenceCodeString code ++ ")" ++
               (match today.message with
                | some m => if m = "" then "" else ": " ++ m
                | none => ""))), 1)
         | some d =>
           if ¬okCode then
             (.error (.error ("Cubence analytics/today 响应异常 (code=" ++ cubenceCodeString code ++ ")" ++
               (match today.message with
                | some m => if m = "" then "" else ": " ++ m
                | none => ""))), 1)
           else
             (.ok { rawConsumption := d.today_consumed_quota.getD 0
                    rawUnit := "micro_usd"
                    conversionFactor := some 1000000
                    promptTokens := some (d.today_tokens.getD 0)
                    completionTokens := some 0
                    requestCount := some (d.today_request_count.getD 0) }, 1))
  | _ => (.error (.error cubenceKindMismatchMsg), 0)

/-- From `CubenceAdapter.autoDetectAccount`: the site exposes no token
concept, so a successful detection returns the username with empty
placeholder `accessToken`/`userId` and a `null` exchange rate; all failure
paths resolve (never throw). -/
def CubenceAdapter.autoDetectAccount (env : CubenceEnv) (siteUrl : String) :
    AutoDetectResult :=
  if strTrim siteUrl = "" then
    { success := false, data := none, error := some "站点地址不能为空", detailedError := none }
  else
    match env.overview with
    | .error e =>
        { success := false, data := none, error := some (jsOrStr (some e.message) "未知错误"), detailedError := none }
    | .ok overview =>
      match overview.data with
      | none => { success := false, data := none, error := some "Cubence overview 响应格式异常", detailedError := none }
      | some d =>
        if ¬overview.success then
          { success := false, data := none, error := some "Cubence overview 响应格式异常", detailedError := none }
        else
          match jsOrStr (d.user.bind (fun u => u.username)) "" with
          | "" => { success := false, data := none, error := some "未获取到用户名，可能未登录或 Cookie 已失效", detailedError := none }
          | username =>
              { success := true
                data := some { username := username, accessToken := "", userId := "", exchangeRate := none }
                error := none
                detailedError := none }

/-! ## Behavioural adapter packaging

`FullAdapter` bundles the operations the account manager invokes, each
already closed over its remote environment.  Optional operations mirror the
optional methods of `ISiteAdapter`; operation results carry the number of
network requests issued. -/

structure FullAdapter : Type where
  metadata : SiteAdapterMetadata
  validateConnection : SiteCredentials → ValidateResult × ℕ
  getAccountBalance : Option (SiteCredentials → (Except JsError BalanceInfo) × ℕ)
  getUsageStats : Option (SiteCredentials → TimeRange → (Except JsError UsageStats) × ℕ)
  autoDetectAccount : Option (String → AutoDetectOutcome)

/-- The OneApi adapter instance over a given remote environment (its
`getUsageStats` ignores the passed time range, as in the source). -/
def oneApiFullAdapter (server : OneApiServer) : FullAdapter :=
  { metadata := oneApiMetadata
    validateConnection := OneApiAdapter.validateConnection server
    getAccountBalance := some (OneApiAdapter.getAccountBalance server)
    getUsageStats := some (fun credentials _timeRange => OneApiAdapter.getUsageStats server credentials)
    autoDetectAccount := some server.autoDetect }

/-- The Cubence adapter instance over a given remote environment. -/
def cubenceFullAdapter (env : CubenceEnv) : FullAdapter :=
  { metadata := cubenceMetadata
    validateConnection := CubenceAdapter.validateConnection env
    getAccountBalance := some (CubenceAdapter.getAccountBalance env)
    getUsageStats := some (fun credentials _timeRange => CubenceAdapter.getUsageStats env credentials)
    autoDetectAccount := some (fun siteUrl => .resolved (CubenceAdapter.autoDetectAccount env siteUrl)) }

/-- `SiteAdapterRegistry.getAdapter` over the two built-in adapters:
case-insensitive, trimmed lookup of the site-type key, `null` when
unknown. -/
def builtinGetAdapter (server : OneApiServer) (env : CubenceEnv)
    (siteType : String) : Option FullAdapter :=
  let normalized := normalizeSiteType siteType
  if normalized ∈ oneApiMetadata.supportedSiteTypes then some (oneApiFullAdapter server)
  else if normalized ∈ cubenceMetadata.supportedSiteTypes then some (cubenceFullAdapter env)
  else none

/-! ## JS numeric string parsing

`parseFloat` / `Number(...)` as used by the account manager. -/

/-- Longest digit prefix of a character list, with the remainder. -/
def takeDigits (cs : List Char) : List Char × List Char :=
  (cs.takeWhile Char.isDigit, cs.dropWhile Char.isDigit)

/-- Numeric value of a digit list. -/
def digitsVal (ds : List Char) : ℕ :=
  ds.foldl (fun acc c => acc * 10 + (c.toNat - Char.toNat '0')) 0

/-- Exponent part of a decimal literal (`e`/`E` already consumed): an
optional sign and at least one digit, else the exponent is not taken. -/
def parseExponent (cs : List Char) : Option (ℤ × List Char) :=
  let (esign, cs₁) : ℤ × List Char :=
    match cs with
    | '+' :: rest => (1, rest)
    | '-' :: rest => (-1, rest)
    | _ => (1, cs)
  let (ds, cs₂) := takeDigits cs₁
  if ds.isEmpty then none else some (esign * (digitsVal ds : ℤ), cs₂)

/-- The syntactic pieces of a decimal literal prefix
`[+|-] digits [. digits] [e [+|-] digits]`, plus the unconsumed remainder. -/
structure DecimalParts : Type where
  negative : Bool
  intDigits : List Char
  fracDigits : List Char
  exponent : ℤ
  rest : List Char
deriving DecidableEq, Repr

/-- Longest decimal-literal prefix of a character list, decomposed into its
pieces; `none` when no digit is found. -/
def parseDecimalParts (cs : List Char) : Option DecimalParts :=
  let (negative, cs₁) : Bool × List Char :=
    match cs with
    | '+' :: rest => (false, rest)
    | '-' :: rest => (true, rest)
    | _ => (false, cs)
  let (intDigits, cs₂) := takeDigits cs₁
  let (fracDigits, cs₃) :=
    match cs₂ with
    | '.' :: rest => takeDigits rest
    | _ => ([], cs₂)
  if intDigits.isEmpty ∧ fracDigits.isEmpty then none
  else
    match cs₃ with
    | 'e' :: rest =>
        (match parseExponent rest with
         | some (ex, rest₂) => some ⟨negative, intDigits, fracDigits, ex, rest₂⟩
         | none => some ⟨negative, intDigits, fracDigits, 0, cs₃⟩)
    | 'E' :: rest =>
        (match parseExponent rest with
         | some (ex, rest₂) => some ⟨negative, intDigits, fracDigits, ex, rest₂⟩
         | none => some ⟨negative, intDigits, fracDigits, 0, cs₃⟩)
    | _ => some ⟨negative, intDigits, fracDigits, 0, cs₃⟩

/-- Numeric value of a decomposed decimal literal. -/
def decimalValue (p : DecimalParts) : ℚ :=
  (if p.negative then -1 else 1) *
    ((digitsVal p.intDigits : ℚ) + (digitsVal p.fracDigits : ℚ) / (10 ^ p.fracDigits.length : ℚ)) *
    (10 : ℚ) ^ p.exponent

/-- Longest decimal-literal prefix of a character list, returning its value
and the remainder; `none` when no digit is found. -/
def parseDecimal (cs : List Char) : Option (ℚ × List Char) :=
  (parseDecimalParts cs).map (fun p => (decimalValue p, p.rest))

/-- JS `parseFloat`: skip leading whitespace, read the longest decimal
literal prefix; `NaN` (here `none`) when none exists.  (`Infinity` literals
lie outside the `ℚ` value model and are not represented.) -/
def jsParseFloat (s : String) : Option ℚ :=
  (parseDecimal (s.toList.dropWhile Char.isWhitespace)).map (fun r => r.1)

/-- JS `Number(...)` on a string: whole-string numeric conversion; the empty
(or all-whitespace) string is `0`, a partial parse is `NaN` (`none`).
(Hex/binary/octal and `Infinity` literals are outside this model; the code
only feeds it user-entered decimal user-ids.) -/
def jsNumber (s : String) : Option ℚ :=
  let t := strTrim s
  if t = "" then some 0
  else
    match parseDecimal t.toList with
    | some (v, []) => some v
    | _ => none

/-! ## Account persistence (`AccountStorageService` / `accountStorage`)

From the account-storage module (`class AccountStorageService`, exported as
`accountStorage`).  The durable `chrome.storage` payload
(`StorageConfig.accounts`) is modelled as the list of stored `SiteAccount`
records.  `getAllAccounts`'s legacy-data backfill
(`site_type ?? "one-api"`, `adapter_config ?? {}`, the numeric
`account_info` fields `?? 0`) is the identity on the well-formed records of
this model, where every such field is present, and is therefore not
represented; the `try/catch` wrappers around the underlying storage
read/write are external I/O faults outside the model. -/

/-- The normalized `account_info` payload of a persisted account (the open
`extra` bag is not read by the modelled logic). -/
structure AccountInfo : Type where
  username : String
  quota : ℚ
  today_prompt_tokens : ℚ
  today_completion_tokens : ℚ
  today_quota_consumption : ℚ
  today_requests_count : ℚ
  access_token : Option String
  api_key : Option String
  id : Option ℚ
deriving DecidableEq, Repr

/-- A persisted `SiteAccount` record (the open `adapter_config` bag is not
read by the modelled logic). -/
structure SiteAccount : Type where
  id : String
  emoji : String
  site_name : String
  site_url : String
  site_type : String
  health_status : String
  exchange_rate : ℚ
  account_info : AccountInfo
  last_sync_time : ℕ
  updated_at : ℕ
  created_at : ℕ
deriving DecidableEq, Repr

/-- A partial account record, as passed to `updateAccount`
(`Partial<Omit<SiteAccount, 'id' | 'created_at'>>`).  An `updated_at`
member of the partial would be overridden by `updateAccount`'s final
`updated_at: Date.now()` stamp, and none of the modelled callers passes
one, so it is not represented. -/
structure AccountUpdate : Type where
  site_name : Option String
  site_url : Option String
  site_type : Option String
  health_status : Option String
  exchange_rate : Option ℚ
  account_info : Option AccountInfo
  last_sync_time : Option ℕ
deriving DecidableEq, Repr

def emptyAccountUpdate : AccountUpdate :=
  { site_name := none, site_url := none, site_type := none, health_status := none
    exchange_rate := none, account_info := none, last_sync_time := none }

/-- The object-spread merge `{ ...accounts[index], ...updates }` of
`AccountStorageService.updateAccount`: a field present in the partial
record overrides the stored one, an absent field keeps it. -/
def applyAccountUpdate (a : SiteAccount) (u : AccountUpdate) : SiteAccount :=
  { a with
    site_name := u.site_name.getD a.site_name
    site_url := u.site_url.getD a.site_url
    site_type := u.site_type.getD a.site_type
    health_status := u.health_status.getD a.health_status
    exchange_rate := u.exchange_rate.getD a.exchange_rate
    account_info := u.account_info.getD a.account_info
    last_sync_time := u.last_sync_time.getD a.last_sync_time }

structure Storage : Type where
  accounts : List SiteAccount
deriving DecidableEq, Repr

/-- From `AccountStorageService.getAllAccounts` (modulo the identity
legacy-data backfill described in the section comment). -/
def getAllAccounts (st : Storage) : List SiteAccount :=
  st.accounts

/-- From `AccountStorageService.getAccountById`:
`accounts.find(account => account.id === id) || null`. -/
def getAccountById (st : Storage) (accountId : String) : Option SiteAccount :=
  (getAllAccounts st).find? (fun a => a.id == accountId)

/-- The `accounts[index] = { ...accounts[index], ...updates, updated_at:
Date.now() }` assignment of `AccountStorageService.updateAccount`:
`findIndex` addresses the first record whose id matches. -/
def updateFirstAccount (accountId : String) (u : AccountUpdate) (now : ℕ) :
    List SiteAccount → List SiteAccount
  | [] => []
  | a :: rest =>
    if a.id = accountId then
      { applyAccountUpdate a u with updated_at := now } :: rest
    else a :: updateFirstAccount accountId u now rest

/-- From `AccountStorageService.updateAccount(id, updates)`: when no
account has the id, the `throw` inside the `try` is caught and `false`
returned without saving; otherwise the merged record (with its
`updated_at` stamped to the clock value `now`) is saved and `true`
returned. -/
def updateAccount (st : Storage) (accountId : String) (u : AccountUpdate) (now : ℕ) :
    Storage × Bool :=
  if (getAllAccounts st).any (fun a => a.id == accountId) then
    ({ accounts := updateFirstAccount accountId u now (getAllAccounts st) }, true)
  else (st, false)

/-- From `AccountStorageService.addAccount(accountData)`: push the new
record with a generated id and `created_at`/`updated_at` set to the clock,
save, and return the id.  `generateId()` (wall clock plus randomness) is
external, so the fresh id arrives as `newId`; the id/timestamp fields of
the passed record — absent from the TS `Omit` parameter type — are
placeholders that this function overwrites.  The `??` normalization of
`accountData` is again the identity here. -/
def addAccount (st : Storage) (newId : String) (now : ℕ) (record : SiteAccount) :
    Storage × String :=
  ({ accounts := (getAllAccounts st) ++
      [{ record with id := newId, created_at := now, updated_at := now }] }, newId)

/-! ## Account manager (`src/services/AccountManager.ts`)

The manager is parameterized over a `ManagerEnv`: the registry lookups it
performs (`getAdapter`, network-probing `detectSiteType`) and the
`analyzeAutoDetectError` classifier.  The classifier lives in
`src/utils/autoDetectUtils` whose source is not available; per the spec it
only produces an opaque `detailedError` classification, so it is an
arbitrary function of the analyzed message / error. -/

structure ManagerEnv : Type where
  getAdapter : String → Option FullAdapter
  detectSiteType : String → Option String
  analyzeStr : String → String
  analyzeErr : JsError → String

structure ValidateAndSaveParams : Type where
  siteType : Option String
  url : String
  siteName : String
  username : String
  accessToken : Option String
  userId : Option String
  apiKey : Option String
  exchangeRate : String
deriving DecidableEq, Repr

structure AccountValidationData : Type where
  username : String
  accessToken : String
  userId : String
  exchangeRate : Option ℚ
  siteType : Option String
deriving DecidableEq, Repr

structure AccountValidationResult : Type where
  success : Bool
  data : Option AccountValidationData
  error : Option String
  detailedError : Option String
deriving DecidableEq, Repr

structure AccountSaveResult : Type where
  success : Bool
  accountId : Option String
  error : Option String
deriving DecidableEq, Repr

/-- Seed fields merged into `account_info` by the save/update flows. -/
structure AccountInfoSeed : Type where
  id : Option ℚ
  access_token : Option String
  api_key : Option String
deriving DecidableEq, Repr

/-- From `AccountManager.resolveSiteType`: explicit non-empty, non-"auto"
value (trimmed, lower-cased) wins; otherwise the registry's detection with
`"one-api"` fallback. -/
def resolveSiteType (detect : String → Option String) (siteUrl : String)
    (siteType : Option String) : String :=
  let normalized := strToLower (strTrim (siteType.getD ""))
  if normalized ≠ "" ∧ normalized ≠ "auto" then normalized
  else jsOrStr (detect siteUrl) "one-api"

/-- From `AccountManager.requireOneApiParams`: both trimmed `accessToken`
and `userId` must be non-empty and `userId` must parse as a number. -/
def requireOneApiParams (params : ValidateAndSaveParams) :
    Except JsError (String × String) :=
  let accessToken := jsOrStr (params.accessToken.map strTrim) ""
  let userId := jsOrStr (params.userId.map strTrim) ""
  if accessToken = "" ∨ userId = "" then
    .error (.error "请填写访问令牌与用户 ID")
  else
    match jsNumber userId with
    | none => .error (.error "用户 ID 必须是数字")
    | some _ => .ok (userId, accessToken)

/-- From `AccountManager.buildCredentialsFromParams`: Cubence → cookie auth;
else a non-empty `apiKey` param → api-key auth; else one-api-token auth via
`requireOneApiParams`.  Returns the credentials, the trimmed explicit
username and the `account_info` seed. -/
def buildCredentialsFromParams (adapterId : String) (siteUrl : String)
    (params : ValidateAndSaveParams) :
    Except JsError (SiteCredentials × String × AccountInfoSeed) :=
  if adapterId = "cubence" then
    .ok (⟨siteUrl, .cookie none⟩, strTrim params.username,
      { id := none, access_token := none, api_key := none })
  else
    let apiKey := jsOrStr (params.apiKey.map strTrim) ""
    if apiKey ≠ "" then
      .ok (⟨siteUrl, .apiKey apiKey⟩, strTrim params.username,
        { id := none, access_token := none, api_key := some apiKey })
    else
      match requireOneApiParams params with
      | .error e => .error e
      | .ok (userId, accessToken) =>
        -- `requireOneApiParams` has already ensured `Number(userId)` is not NaN.
        let parsedUserId := (jsNumber userId).getD 0
        .ok (⟨siteUrl, .oneApiToken parsedUserId (strTrim accessToken)⟩, strTrim params.username,
          { id := some parsedUserId, access_token := some (strTrim accessToken), api_key := none })

/-- From `AccountManager.getAccountSiteType`:
`((account.site_type || "one-api")).toLowerCase()`. -/
def getAccountSiteType (account : SiteAccount) : String :=
  strToLower (jsOrStr (some account.site_type) "one-api")

/-- From `AccountManager.buildCredentialsFromStoredAccount`: cookie auth for
Cubence accounts; api-key auth when a stored `api_key` is present; else
one-api-token auth requiring a stored numeric `id` and `access_token`. -/
def buildCredentialsFromStoredAccount (account : SiteAccount) :
    Except JsError SiteCredentials :=
  let siteType := getAccountSiteType account
  if siteType = "cubence" then
    .ok ⟨account.site_url, .cookie none⟩
  else
    let apiKey := jsOrStr account.account_info.api_key ""
    if apiKey ≠ "" then
      .ok ⟨account.site_url, .apiKey apiKey⟩
    else
      let userId := account.account_info.id
      let accessToken := jsOrStr account.account_info.access_token ""
      if accessToken = "" ∨ userId = none then
        .error (.error "账号缺少 userId 或 access_token")
      else
        -- the guard above has ensured `userId` is a finite number
        .ok ⟨account.site_url, .oneApiToken (userId.getD 0) accessToken⟩

/-- From `AccountManager.autoDetectAccount`: resolve the effective site
type, require AUTO_DETECT, delegate, normalize every failure to
`{success:false, error, detailedError?}` and tag success data with the
resolved site type. -/
def AccountManager.autoDetectAccount (env : ManagerEnv) (siteUrl : String)
    (siteType : Option String) : AccountValidationResult :=
  if strTrim siteUrl = "" then
    { success := false, data := none, error := some "站点地址不能为空", detailedError := none }
  else
    let resolvedSiteType := resolveSiteType env.detectSiteType (strTrim siteUrl) siteType
    match env.getAdapter resolvedSiteType with
    | none =>
        { success := false, data := none
          error := some ("不支持的站点类型: " ++ resolvedSiteType), detailedError := none }
    | some adapter =>
      match adapter.autoDetectAccount with
      | none =>
          { success := false, data := none
            error := some ("站点类型 \x27" ++ resolvedSiteType ++ "\x27 不支持自动识别")
            detailedError := none }
      | some detect =>
        if ¬(adapter.metadata.capabilities.contains .AUTO_DETECT) then
          { success := false, data := none
            error := some ("站点类型 \x27" ++ resolvedSiteType ++ "\x27 不支持自动识别")
            detailedError := none }
        else
          match detect (strTrim siteUrl) with
          | .thrown e =>
              { success := false, data := none
                error := some ("自动识别失败: " ++ e.message)
                detailedError := some (env.analyzeErr e) }
          | .resolved result =>
            if ¬result.success then
              { success := false, data := none
                error := some (jsOrStr result.error "自动检测失败")
                detailedError :=
                  some (result.detailedError.getD (env.analyzeStr (jsOrStr result.error "自动检测失败"))) }
            else
              { success := true
                data := result.data.map (fun d =>
                  { username := d.username, accessToken := d.accessToken, userId := d.userId
                    exchangeRate := d.exchangeRate, siteType := some resolvedSiteType })
                error := none, detailedError := none }

/-- Concurrent balance fetch of the save/update/refresh flows: absent
capability yields `null` rather than an error. -/
def runBalanceFetch (adapter : FullAdapter) (credentials : SiteCredentials) :
    (Except JsError (Option BalanceInfo)) × ℕ :=
  match adapter.getAccountBalance with
  | some f =>
      (match f credentials with
       | (.ok b, n) => (.ok (some b), n)
       | (.error e, n) => (.error e, n))
  | none => (.ok none, 0)

/-- Concurrent usage fetch of the save/update/refresh flows. -/
def runUsageFetch (adapter : FullAdapter) (credentials : SiteCredentials)
    (timeRange : TimeRange) : (Except JsError (Option UsageStats)) × ℕ :=
  match adapter.getUsageStats with
  | some f =>
      (match f credentials timeRange with
       | (.ok u, n) => (.ok (some u), n)
       | (.error e, n) => (.error e, n))
  | none => (.ok none, 0)

/-- The normalized `account_info` assembled by the save/update flows
(`quota := balance?.rawBalance ?? 0`, usage counters `?? 0`). -/
def assembleAccountInfo (seed : AccountInfoSeed) (resolvedUsername : String)
    (balance : Option BalanceInfo) (usage : Option UsageStats) : AccountInfo :=
  { username := resolvedUsername
    quota := (balance.map (fun b => b.rawBalance)).getD 0
    today_prompt_tokens := (usage.bind (fun u => u.promptTokens)).getD 0
    today_completion_tokens := (usage.bind (fun u => u.completionTokens)).getD 0
    today_quota_consumption := (usage.map (fun u => u.rawConsumption)).getD 0
    today_requests_count := (usage.bind (fun u => u.requestCount)).getD 0
    access_token := seed.access_token
    api_key := seed.api_key
    id := seed.id }

/-- `username || validate.details?.username || validate.details?.user?.username || ""`. -/
def resolveUsername (username : String) (validate : ValidateResult) : String :=
  jsOrStr (some username)
    (jsOrStr (validate.details.bind (fun d => d.username))
      (jsOrStr (validate.details.bind (fun d => d.userUsername)) ""))

/-- From `AccountManager.validateAndSaveAccount`.  `now` is the wall clock
(`Date.now()`), `timeRange` the clock-derived today range, `newId` the
storage-generated id for a created record.  Returns the result, the
post-state of the storage and the number of network requests the adapter
operations issued. -/
def validateAndSaveAccount (env : ManagerEnv) (st : Storage) (now : ℕ)
    (timeRange : TimeRange) (newId : String) (params : ValidateAndSaveParams) :
    AccountSaveResult × Storage × ℕ :=
  let siteName := strTrim params.siteName
  let siteUrl := strTrim params.url
  if siteUrl = "" ∨ siteName = "" then
    ({ success := false, accountId := none, error := some "请填写完整的账号信息" }, st, 0)
  else
    let resolvedSiteType := resolveSiteType env.detectSiteType siteUrl params.siteType
    match env.getAdapter resolvedSiteType with
    | none =>
        ({ success := false, accountId := none
           error := some ("不支持的站点类型: " ++ resolvedSiteType) }, st, 0)
    | some adapter =>
      let exchangeRate := jsOrNum (jsParseFloat params.exchangeRate) 7.2
      match buildCredentialsFromParams adapter.metadata.id siteUrl params with
      | .error e =>
          ({ success := false, accountId := none, error := some ("保存失败: " ++ e.message) }, st, 0)
      | .ok (credentials, username, accountInfoSeed) =>
        let validateRun := adapter.validateConnection credentials
        let validate := validateRun.1
        if ¬validate.ok then
          ({ success := false, accountId := none
             error := some (jsOrStr validate.message "账号连接验证失败") }, st, validateRun.2)
        else
          let resolvedUsername := resolveUsername username validate
          if resolvedUsername = "" then
            ({ success := false, accountId := none
               error := some "未获取到用户名，请先登录站点或手动填写用户名" }, st, validateRun.2)
          else
            let balanceRun := runBalanceFetch adapter credentials
            let usageRun := runUsageFetch adapter credentials timeRange
            let reqs := validateRun.2 + balanceRun.2 + usageRun.2
            match balanceRun.1 with
            | .error e =>
                ({ success := false, accountId := none, error := some ("保存失败: " ++ e.message) }, st, reqs)
            | .ok balance =>
              match usageRun.1 with
              | .error e =>
                  ({ success := false, accountId := none, error := some ("保存失败: " ++ e.message) }, st, reqs)
              | .ok usage =>
                let record : SiteAccount :=
                  { id := ""
                    emoji := ""
                    site_name := siteName
                    site_url := siteUrl
                    site_type := resolvedSiteType
                    health_status := "healthy"
                    exchange_rate := exchangeRate
                    account_info := assembleAccountInfo accountInfoSeed resolvedUsername balance usage
                    last_sync_time := now
                    updated_at := 0
                    created_at := 0 }
                let added := addAccount st newId now record
                ({ success := true, accountId := some added.2, error := none }, added.1, reqs)

/-- From `AccountManager.validateAndUpdateAccount`: the same algorithm as
`validateAndSaveAccount` against an existing `accountId`, ending in a
partial `updateAccount` instead of `addAccount`. -/
def validateAndUpdateAccount (env : ManagerEnv) (st : Storage) (now : ℕ)
    (timeRange : TimeRange) (accountId : String) (params : ValidateAndSaveParams) :
    AccountSaveResult × Storage × ℕ :=
  if accountId = "" then
    ({ success := false, accountId := none, error := some "账号 ID 不能为空" }, st, 0)
  else
    let siteName := strTrim params.siteName
    let siteUrl := strTrim params.url
    if siteUrl = "" ∨ siteName = "" then
      ({ success := false, accountId := none, error := some "请填写完整的账号信息" }, st, 0)
    else
      let resolvedSiteType := resolveSiteType env.detectSiteType siteUrl params.siteType
      match env.getAdapter resolvedSiteType with
      | none =>
          ({ success := false, accountId := none
             error := some ("不支持的站点类型: " ++ resolvedSiteType) }, st, 0)
      | some adapter =>
        let exchangeRate := jsOrNum (jsParseFloat params.exchangeRate) 7.2
        match buildCredentialsFromParams adapter.metadata.id siteUrl params with
        | .error e =>
            ({ success := false, accountId := none, error := some ("更新失败: " ++ e.message) }, st, 0)
        | .ok (credentials, username, accountInfoSeed) =>
          let validateRun := adapter.validateConnection credentials
          let validate := validateRun.1
          if ¬validate.ok then
            ({ success := false, accountId := none
               error := some (jsOrStr validate.message "账号连接验证失败") }, st, validateRun.2)
          else
            let resolvedUsername := resolveUsername username validate
            if resolvedUsername = "" then
              ({ success := false, accountId := none
                 error := some "未获取到用户名，请先登录站点或手动填写用户名" }, st, validateRun.2)
            else
              let balanceRun := runBalanceFetch adapter credentials
              let usageRun := runUsageFetch adapter credentials timeRange
              let reqs := validateRun.2 + balanceRun.2 + usageRun.2
              match balanceRun.1 with
              | .error e =>
                  ({ success := false, accountId := none, error := some ("更新失败: " ++ e.message) }, st, reqs)
              | .ok balance =>
                match usageRun.1 with
                | .error e =>
                    ({ success := false, accountId := none, error := some ("更新失败: " ++ e.message) }, st, reqs)
                | .ok usage =>
                  let upd : AccountUpdate :=
                    { site_name := some siteName
                      site_url := some siteUrl
                      site_type := some resolvedSiteType
                      health_status := some "healthy"
                      exchange_rate := some exchangeRate
                      account_info := some (assembleAccountInfo accountInfoSeed resolvedUsername balance usage)
                      last_sync_time := some now }
                  let updated := updateAccount st accountId upd now
                  if updated.2 then
                    ({ success := true, accountId := some accountId, error := none }, updated.1, reqs)
                  else
                    ({ success := false, accountId := none, error := some "更新账号失败" }, updated.1, reqs)

/-- Catch-branch of `refreshAccount`: classify the error and persist only
`health_status` and `last_sync_time`, returning `false`. -/
def refreshFailure (st : Storage) (accountId : String) (now : ℕ) (e : JsError) :
    Storage × Bool :=
  let health := determineHealthStatus e
  ((updateAccount st accountId
      { emptyAccountUpdate with health_status := some health.status, last_sync_time := some now }
      now).1,
   false)

/-- From `AccountManager.refreshAccount`: load the account, rebuild
credentials from storage, fetch balance+usage (`Promise.all`: the balance
rejection is reported when both fetches reject, matching the source order),
merge into `account_info` and persist with `health_status: "healthy"`; any
thrown error is classified and only health/timestamp fields are persisted. -/
def AccountManager.refreshAccount (getAdapter : String → Option FullAdapter)
    (st : Storage) (accountId : String) (timeRange : TimeRange) (now : ℕ) :
    Storage × Bool :=
  match getAccountById st accountId with
  | none => refreshFailure st accountId now (.error ("账号 " ++ accountId ++ " 不存在"))
  | some account =>
    let siteType := getAccountSiteType account
    match getAdapter siteType with
    | none => refreshFailure st accountId now (.error ("不支持的站点类型: " ++ siteType))
    | some adapter =>
      match buildCredentialsFromStoredAccount account with
      | .error e => refreshFailure st accountId now e
      | .ok credentials =>
        let balanceRun := runBalanceFetch adapter credentials
        let usageRun := runUsageFetch adapter credentials timeRange
        match balanceRun.1 with
        | .error e => refreshFailure st accountId now e
        | .ok balance =>
          match usageRun.1 with
          | .error e => refreshFailure st accountId now e
          | .ok usage =>
            let nextInfo := account.account_info
            let nextInfo :=
              match balance with
              | some b => { nextInfo with quota := b.rawBalance }
              | none => nextInfo
            let nextInfo :=
              match usage with
              | some u =>
                  { nextInfo with
                    today_quota_consumption := u.rawConsumption
                    today_prompt_tokens := u.promptTokens.getD 0
                    today_completion_tokens := u.completionTokens.getD 0
                    today_requests_count := u.requestCount.getD 0 }
              | none => nextInfo
            ((updateAccount st accountId
                { emptyAccountUpdate with
                  health_status := some "healthy"
                  last_sync_time := some now
                  account_info := some nextInfo }
                now).1,
             true)

/-- The first error thrown inside `refreshAccount`'s try block after the
account and adapter have been found: credential rebuilding, then the
balance fetch, then the usage fetch (`Promise.all` order). -/
def refreshFetchError (adapter : FullAdapter) (account : SiteAccount)
    (timeRange : TimeRange) : Option JsError :=
  match buildCredentialsFromStoredAccount account with
  | .error e => some e
  | .ok credentials =>
    match (runBalanceFetch adapter credentials).1 with
    | .error e => some e
    | .ok _ =>
      match (runUsageFetch adapter credentials timeRange).1 with
      | .error e => some e
      | .ok _ => none

/-! ## Concrete instances used by claim witnesses and counterexamples -/

def c2Account : SiteAccount :=
  { id := "a1"
    emoji := ""
    site_name := "site"
    site_url := "https://x.example"
    site_type := "one-api"
    health_status := "healthy"
    exchange_rate := 7
    account_info :=
      { username := "u", quota := 123, today_prompt_tokens := 1, today_completion_tokens := 2
        today_quota_consumption := 3, today_requests_count := 4
        access_token := some "t", api_key := none, id := some 1 }
    last_sync_time := 5
    updated_at := 6
    created_at := 7 }

def c2Storage : Storage := { accounts := [c2Account] }

def c2Server : OneApiServer :=
  { userSelf := .error (.typeError "Failed to fetch")
    logPage := fun _ => .ok { items := some [], total := some 0 }
    autoDetect := fun _ => .resolved { success := false, data := none, error := none, detailedError := none } }

def c2CubenceEnv : CubenceEnv :=
  { overview := .ok { success := false, data := none }
    analyticsToday := .ok { code := none, message := none, data := none } }

def c2GetAdapter : String → Option FullAdapter :=
  builtinGetAdapter c2Server c2CubenceEnv

def c5Server : OneApiServer :=
  { userSelf := .ok { quota := some 1000000 }
    logPage := fun _ => .ok { items := some [], total := some 0 }
    autoDetect := fun _ => .resolved { success := false, data := none, error := none, detailedError := none } }

def c5CookieCredentials : SiteCredentials :=
  { siteUrl := "https://example.com", auth := .cookie none }

def c7Balance : CubenceBalanceFields :=
  { total_balance := none, total_balance_dollar := some 3.5 }

def c7Data : CubenceOverviewData :=
  { user := some { username := some "u" }, balance := some c7Balance }

def c7Env : CubenceEnv :=
  { overview := .ok { success := true, data := some c7Data }
    analyticsToday := .ok { code := none, message := none, data := none } }

def c7Credentials : SiteCredentials :=
  { siteUrl := "https://cubence.com", auth := .cookie none }

def c8Adapter : FullAdapter :=
  { metadata := oneApiMetadata
    validateConnection := fun _ => ({ ok := false, message := none, details := none }, 0)
    getAccountBalance := none
    getUsageStats := none
    autoDetectAccount := some (fun _ => .thrown (.error "boom")) }

def c8Env : ManagerEnv :=
  { getAdapter := fun _ => some c8Adapter
    detectSiteType := fun _ => none
    analyzeStr := fun s => s
    analyzeErr := fun e => e.message }

def c10Params : ValidateAndSaveParams :=
  { siteType := some "one-api"
    url := "https://x.example"
    siteName := "site"
    username := "u"
    accessToken := some "t"
    userId := some "1"
    apiKey := none
    exchangeRate := "abc" }

def c10Env : ManagerEnv :=
  { getAdapter := fun _ => none
    detectSiteType := fun _ => none
    analyzeStr := fun s => s
    analyzeErr := fun e => e.message }

def c9Server : OneApiServer :=
  { userSelf := .ok { quota := some 42 }
    logPage := fun _ => .ok { items := some [], total := some 0 }
    autoDetect := fun _ => .resolved { success := false, data := none, error := none, detailedError := none } }

def c9CubenceEnv : CubenceEnv :=
  { overview := .ok { success := false, data := none }
    analyticsToday := .ok { code := none, message := none, data := none } }

def c9Params : ValidateAndSaveParams :=
  { siteType := some "one-api"
    url := "https://x.example"
    siteName := "site"
    username := "u"
    accessToken := none
    userId := none
    apiKey := some "sk-abc"
    exchangeRate := "7.2" }

/-- The throw condition stated by the spec for `registerAdapter`: empty id,
id already registered, some site-type key already claimed by a previously
registered adapter, or a declared capability lacking its method(s). -/
@[reducible] def c1ClaimedThrowCondition (st : RegistryState) (adapter : AdapterShape) : Prop :=
  adapter.metadata.id = "" ∨
  (alookup adapter.metadata.id st.adaptersById).isSome = true ∨
  (∃ t ∈ adapter.metadata.supportedSiteTypes,
    (alookup (normalizeSiteType t) st.adaptersBySiteType).isSome = true) ∨
  capabilityMissing adapter = true

/-- An adapter whose own `supportedSiteTypes` contains a duplicate after
normalization: the registration loop then collides with the entry it has
just inserted itself. -/
def c1DupAdapter : AdapterShape :=
  { metadata :=
      { id := "dup", name := "Dup", version := "1.0.0"
        supportedSiteTypes := ["x", "X "], capabilities := [], balance := none }
    hasAutoDetectAccount := false
    hasGetAccountBalance := false
    hasGetUsageStats := false
    hasGetApiTokens := false
    hasCreateApiToken := false
    hasUpdateApiToken := false
    hasDeleteApiToken := false
    hasGetAvailableModels := false
    hasGetModelPricing := false }

/-- A well-formed adapter used to witness the successful-registration
postcondition. -/
def c1GoodAdapter : AdapterShape :=
  { metadata :=
      { id := "good", name := "Good", version := "1.0.0"
        supportedSiteTypes := ["alpha", "beta"], capabilities := [], balance := none }
    hasAutoDetectAccount := false
    hasGetAccountBalance := false
    hasGetUsageStats := false
    hasGetApiTokens := false
    hasCreateApiToken := false
    hasUpdateApiToken := false
    hasDeleteApiToken := false
    hasGetAvailableModels := false
    hasGetModelPricing := false }

def c1GoodState : RegistryState :=
  { adaptersById := [("good", c1GoodAdapter)]
    adaptersBySiteType := [("alpha", c1GoodAdapter), ("beta", c1GoodAdapter)] }

def c3PageItem : LogItem :=
  { quota := some 1, prompt_tokens := some 2, completion_tokens := some 3 }

def c3FullPage : LogPage :=
  { items := some (List.replicate 100 c3PageItem), total := some 250 }

def c3HalfPage : LogPage :=
  { items := some (List.replicate 50 c3PageItem), total := some 250 }

/-- A server reporting `total = 250` at page size 100 and returning full
pages: 100 + 100 + 50 items. -/
def c3Server250 : ℕ → Except JsError LogPage :=
  fun p => if p ≤ 2 then .ok c3FullPage else .ok c3HalfPage

def c3EmptyPage : LogPage :=
  { items := some [], total := some 250 }

/-- A misbehaving server reporting `total = 250` but returning empty
pages. -/
def c3EmptyServer : ℕ → Except JsError LogPage :=
  fun _ => .ok c3EmptyPage

/-! ## Claim theorems -/

lemma detectSiteTypeGo_eq_find (url : String) (adapters : List ProbeAdapter) :
    detectSiteType.detectSiteTypeGo url adapters =
      (adapters.find? (fun a => probeTruthy a url)).map (fun a => a.id) := by
  induction adapters with
  | nil => rfl
  | cons a rest ih =>
    rw [detectSiteType.detectSiteTypeGo]
    cases ha : a.getSiteStatus with
    | none =>
        have hp : probeTruthy a url = false := by simp [probeTruthy, ha]
        simp [List.find?_cons, hp, ih]
    | some probe =>
        cases hr : probe url with
        | ok b =>
            cases b with
            | false =>
                have hp : probeTruthy a url = false := by simp [probeTruthy, ha, hr]
                simp [hr, List.find?_cons, hp, ih]
            | true =>
                have hp : probeTruthy a url = true := by simp [probeTruthy, ha, hr]
                simp [hr, List.find?_cons, hp]
        | error e =>
            have hp : probeTruthy a url = false := by simp [probeTruthy, ha, hr]
            simp [hr, List.find?_cons, hp, ih]

/-- Claim C4: for every registered-adapter sequence and URL, `detectSiteType`
probes `getSiteStatus` in registration order, skipping adapters that do not
implement it, treats throwing probes as non-matches, returns the
`metadata.id` of the first adapter whose probe resolves truthy, and returns
`null` (never throwing — the embedding is a total function) when no probe
returns truthy: it equals the first-match search over `probeTruthy`. -/
theorem claim_C4_detectSiteType_first_truthy (adapters : List ProbeAdapter) (siteUrl : String) :
    detectSiteType adapters siteUrl =
      (adapters.find? (fun a => probeTruthy a (normalizeSiteUrl siteUrl))).map (fun a => a.id) := by
  rw [detectSiteType]
  exact detectSiteTypeGo_eq_find _ adapters

/-- Claim C5: the OneApi adapter's `getAccountBalance` and `getUsageStats`
reject non-`one-api-token` credentials with the kind-identifying message
before any network call (request count 0), `validateConnection` returns
`ok = false` with that message instead of throwing, and with
`one-api-token` credentials no kind-mismatch is raised: each operation
proceeds to the network (request count ≥ 1) and a successful quota fetch
yields a successful balance. -/
theorem claim_C5_oneapi_auth_kind_guard (server : OneApiServer) (credentials : SiteCredentials) :
    (credentials.auth.kind ≠ "one-api-token" →
      OneApiAdapter.getAccountBalance server credentials =
        (.error (.error oneApiKindMismatchMsg), 0) ∧
      OneApiAdapter.getUsageStats server credentials =
        (.error (.error oneApiKindMismatchMsg), 0) ∧
      OneApiAdapter.validateConnection server credentials =
        ({ ok := false, message := some oneApiKindMismatchMsg, details := none }, 0) ∧
      strContains oneApiKindMismatchMsg "one-api-token" = true) ∧
    (credentials.auth.kind = "one-api-token" →
      (OneApiAdapter.getAccountBalance server credentials).2 = 1 ∧
      (OneApiAdapter.validateConnection server credentials).2 = 1 ∧
      1 ≤ (OneApiAdapter.getUsageStats server credentials).2 ∧
      (∀ q, fetchAccountQuota server = .ok q →
        (OneApiAdapter.getAccountBalance server credentials).1 =
          .ok { rawBalance := q, rawUnit := "quota_points", conversionFactor := some 500000,
                balanceUSD := some (q / 500000) })) := by
  obtain ⟨url, auth⟩ := credentials
  have husage : ∀ logPage, 1 ≤ (fetchTodayUsage logPage).2 := by
    intro logPage
    rw [fetchTodayUsage, show (MAX_PAGES : ℕ) = 99 + 1 from rfl, fetchTodayUsageLoop]
    cases logPage 1 with
    | error e => simp
    | ok pg =>
        simp only []
        split
        · simp
        · simp
  cases auth with
  | oneApiToken userId accessToken =>
      refine ⟨by simp [SiteAuth.kind], fun _ => ?_⟩
      refine ⟨?_, ?_, ?_, ?_⟩
      · rw [OneApiAdapter.getAccountBalance]
        cases fetchAccountQuota server <;> simp
      · rw [OneApiAdapter.validateConnection]
        cases validateAccountConnection server <;> simp
      · rw [OneApiAdapter.getUsageStats]
        have := husage server.logPage
        rcases hu : fetchTodayUsage server.logPage with ⟨r, n⟩
        cases r <;> simp_all
      · intro q hq
        rw [OneApiAdapter.getAccountBalance, hq]
  | apiKey key =>
      exact ⟨fun _ => ⟨rfl, rfl, rfl, by decide⟩, by simp [SiteAuth.kind]⟩
  | cookie userId =>
      exact ⟨fun _ => ⟨rfl, rfl, rfl, by decide⟩, by simp [SiteAuth.kind]⟩

/-- Witness for C5 at cookie-auth credentials against a concrete server. -/
theorem claim_C5_oneapi_auth_kind_guard_witness :
    OneApiAdapter.getAccountBalance c5Server c5CookieCredentials =
      (.error (.error oneApiKindMismatchMsg), 0) ∧
    OneApiAdapter.getUsageStats c5Server c5CookieCredentials =
      (.error (.error oneApiKindMismatchMsg), 0) ∧
    OneApiAdapter.validateConnection c5Server c5CookieCredentials =
      ({ ok := false, message := some oneApiKindMismatchMsg, details := none }, 0) ∧
    strContains oneApiKindMismatchMsg "one-api-token" = true :=
  (claim_C5_oneapi_auth_kind_guard c5Server c5CookieCredentials).1 (by decide)

/-- Claim C6: both adapters report `balanceUSD = rawBalance /
conversionFactor` with their declared factors and raw units (OneApi:
`quota_points` / 500000; Cubence: `micro_usd` / 1000000); in particular
1,000,000 quota points yield `balanceUSD = 2.00` and 2,500,000 micro-USD
yield `balanceUSD = 2.50`. -/
theorem claim_C6_balance_conversion :
    (∀ (server : OneApiServer) (credentials : SiteCredentials) (b : BalanceInfo),
      (OneApiAdapter.getAccountBalance server credentials).1 = .ok b →
        b.rawUnit = "quota_points" ∧ b.conversionFactor = some 500000 ∧
        b.balanceUSD = some (b.rawBalance / 500000)) ∧
    (∀ (env : CubenceEnv) (credentials : SiteCredentials) (b : BalanceInfo),
      (CubenceAdapter.getAccountBalance env credentials).1 = .ok b →
        b.rawUnit = "micro_usd" ∧ b.conversionFactor = some 1000000 ∧
        b.balanceUSD = some (b.rawBalance / 1000000)) ∧
    (OneApiAdapter.getAccountBalance
        { userSelf := .ok { quota := some 1000000 }
          logPage := fun _ => .ok { items := some [], total := some 0 }
          autoDetect := fun _ => .resolved { success := false, data := none, error := none, detailedError := none } }
        { siteUrl := "https://example.com", auth := .oneApiToken 1 "token" }).1 =
      .ok { rawBalance := 1000000, rawUnit := "quota_points",
            conversionFactor := some 500000, balanceUSD := some 2 } ∧
    (CubenceAdapter.getAccountBalance
        { overview := .ok { success := true
                            data := some { user := some { username := some "u" }
                                           balance := some { total_balance := some 2500000
                                                             total_balance_dollar := none } } }
          analyticsToday := .ok { code := none, message := none, data := none } }
        { siteUrl := "https://cubence.com", auth := .cookie none }).1 =
      .ok { rawBalance := 2500000, rawUnit := "micro_usd",
            conversionFactor := some 1000000, balanceUSD := some 2.5 } := by
  refine ⟨?_, ?_, ?_, ?_⟩
  · rintro server ⟨url, auth⟩ b hb
    cases auth with
    | oneApiToken userId accessToken =>
        rw [OneApiAdapter.getAccountBalance] at hb
        cases hq : fetchAccountQuota server with
        | ok q => rw [hq] at hb; simp at hb; simp [← hb]
        | error e => rw [hq] at hb; simp at hb
    | apiKey key => simp [OneApiAdapter.getAccountBalance] at hb
    | cookie userId => simp [OneApiAdapter.getAccountBalance] at hb
  · rintro env ⟨url, auth⟩ b hb
    cases auth with
    | cookie userId =>
        cases ho : env.overview with
        | error e => simp [CubenceAdapter.getAccountBalance, ho] at hb
        | ok overview =>
            cases hd : overview.data with
            | none => simp [CubenceAdapter.getAccountBalance, ho, hd] at hb
            | some d =>
                by_cases hs : overview.success
                · simp only [CubenceAdapter.getAccountBalance, ho, hd, hs, not_true,
                    if_false, Except.ok.injEq] at hb
                  simp [← hb]
                · simp [CubenceAdapter.getAccountBalance, ho, hd, hs] at hb
    | oneApiToken userId accessToken => simp [CubenceAdapter.getAccountBalance] at hb
    | apiKey key => simp [CubenceAdapter.getAccountBalance] at hb
  · rw [OneApiAdapter.getAccountBalance]
    norm_num [fetchAccountQuota, jsOrNum, Except.map]
  · rw [CubenceAdapter.getAccountBalance]
    norm_num [jsOrNum]

/-- Witness for C6's general laws, read off at the two concrete balance
scenarios of the claim. -/
theorem claim_C6_balance_conversion_witness :
    ({ rawBalance := 1000000, rawUnit := "quota_points",
       conversionFactor := some 500000, balanceUSD := some 2 } : BalanceInfo).balanceUSD =
        some (({ rawBalance := 1000000, rawUnit := "quota_points",
                 conversionFactor := some 500000, balanceUSD := some 2 } : BalanceInfo).rawBalance / 500000) ∧
    ({ rawBalance := 2500000, rawUnit := "micro_usd",
       conversionFactor := some 1000000, balanceUSD := some 2.5 } : BalanceInfo).balanceUSD =
        some (({ rawBalance := 2500000, rawUnit := "micro_usd",
                 conversionFactor := some 1000000, balanceUSD := some 2.5 } : BalanceInfo).rawBalance / 1000000) := by
  constructor
  · exact (claim_C6_balance_conversion.1
      { userSelf := .ok { quota := some 1000000 }
        logPage := fun _ => .ok { items := some [], total := some 0 }
        autoDetect := fun _ => .resolved { success := false, data := none, error := none, detailedError := none } }
      { siteUrl := "https://example.com", auth := .oneApiToken 1 "token" }
      _ claim_C6_balance_conversion.2.2.1).2.2
  · exact (claim_C6_balance_conversion.2.1
      { overview := .ok { success := true
                          data := some { user := some { username := some "u" }
                                         balance := some { total_balance := some 2500000
                                                           total_balance_dollar := none } } }
        analyticsToday := .ok { code := none, message := none, data := none } }
      { siteUrl := "https://cubence.com", auth := .cookie none }
      _ claim_C6_balance_conversion.2.2.2).2.2

/-- Claim C7: for a successful Cubence overview response, `rawBalance`
equals the integer `total_balance` field whenever it is a number (even when
the dollar field is also present); when `total_balance` is absent and
`total_balance_dollar` is a number, `rawBalance = round(dollar × 1,000,000)`,
and in particular `3.5` dollars yield `3,500,000`. -/
theorem claim_C7_cubence_balance_fields (env : CubenceEnv) (credentials : SiteCredentials)
    (d : CubenceOverviewData) (bf : CubenceBalanceFields)
    (hc : credentials.auth.kind = "cookie")
    (ho : env.overview = .ok { success := true, data := some d })
    (hbal : d.balance = some bf) :
    (∀ r, bf.total_balance = some r →
      (CubenceAdapter.getAccountBalance env credentials).1 =
        .ok { rawBalance := r, rawUnit := "micro_usd", conversionFactor := some 1000000,
              balanceUSD := some (r / 1000000) }) ∧
    (∀ u, bf.total_balance = none → bf.total_balance_dollar = some u →
      (CubenceAdapter.getAccountBalance env credentials).1 =
        .ok { rawBalance := (jsRound (u * 1000000) : ℚ), rawUnit := "micro_usd",
              conversionFactor := some 1000000,
              balanceUSD := some ((jsRound (u * 1000000) : ℚ) / 1000000) }) ∧
    (jsRound ((3.5 : ℚ) * 1000000) : ℚ) = 3500000 := by
  obtain ⟨url, auth⟩ := credentials
  cases auth with
  | oneApiToken userId accessToken => simp [SiteAuth.kind] at hc
  | apiKey key => simp [SiteAuth.kind] at hc
  | cookie userId =>
      refine ⟨?_, ?_, ?_⟩
      · intro r hr
        simp [CubenceAdapter.getAccountBalance, ho, hbal, hr]
      · intro u hr hu
        simp [CubenceAdapter.getAccountBalance, ho, hbal, hr, hu]
      · norm_num [jsRound, ratFloor]

/-- Witness for C7: the dollar-field fallback at `total_balance_dollar = 3.5`. -/
theorem claim_C7_cubence_balance_fields_witness :
    (CubenceAdapter.getAccountBalance c7Env c7Credentials).1 =
      .ok { rawBalance := 3500000, rawUnit := "micro_usd", conversionFactor := some 1000000,
            balanceUSD := some 3.5 } := by
  have h := (claim_C7_cubence_balance_fields c7Env c7Credentials c7Data c7Balance
    (by decide) rfl rfl).2.1 3.5 rfl rfl
  rw [h]
  norm_num [jsRound, ratFloor]

lemma find_updateFirst (accounts : List SiteAccount) (i : String) (u : AccountUpdate) (now : ℕ) :
    (updateFirstAccount i u now accounts).find? (fun a => a.id == i) =
      (accounts.find? (fun a => a.id == i)).map
        (fun a => { applyAccountUpdate a u with updated_at := now }) := by
  induction accounts with
  | nil => rfl
  | cons a rest ih =>
      by_cases h : a.id = i
      · have hid : (applyAccountUpdate a u).id = a.id := rfl
        simp [updateFirstAccount, List.find?_cons, h, hid]
      · simp [updateFirstAccount, List.find?_cons, h, ih]

lemma getAccountById_updateAccount (st : Storage) (i : String) (u : AccountUpdate) (now : ℕ) :
    getAccountById (updateAccount st i u now).1 i =
      (getAccountById st i).map (fun a => { applyAccountUpdate a u with updated_at := now }) := by
  rw [updateAccount]
  by_cases h : (getAllAccounts st).any (fun a => a.id == i)
  · simp only [h, if_true]
    exact find_updateFirst st.accounts i u now
  · simp only [h, if_false, Bool.false_eq_true]
    have hnone : st.accounts.find? (fun a => a.id == i) = none := by
      rw [List.find?_eq_none]
      intro x hx
      intro hpx
      exact h (List.any_eq_true.mpr ⟨x, hx, hpx⟩)
    simp [getAccountById, getAllAccounts, hnone]

/-- Claim C2: when refreshing a stored account, if credential rebuilding or
the balance/usage fetch throws, the persisted update touches only
`health_status` and `last_sync_time` — plus the storage layer's own
`updated_at` bookkeeping stamp — so `account_info`, in particular
`account_info.quota`, keeps its stored value; the written status is
`determineHealthStatus` of the thrown error — fetch-level `TypeError`
mentioning `fetch` ↦ `"error"`, HTTP error carrying a status code ↦
`"warning"`, anything else ↦ `"unknown"` — and `refreshAccount` returns
`false` instead of rethrowing. -/
theorem claim_C2_refresh_failure_preserves_data
    (getAdapter : String → Option FullAdapter) (st : Storage) (accountId : String)
    (timeRange : TimeRange) (now : ℕ) (account : SiteAccount) (adapter : FullAdapter) (e : JsError)
    (hacct : getAccountById st accountId = some account)
    (hadapter : getAdapter (getAccountSiteType account) = some adapter)
    (herr : refreshFetchError adapter account timeRange = some e) :
    AccountManager.refreshAccount getAdapter st accountId timeRange now =
      ((updateAccount st accountId
        { emptyAccountUpdate with
          health_status := some (determineHealthStatus e).status
          last_sync_time := some now } now).1, false) ∧
    getAccountById (AccountManager.refreshAccount getAdapter st accountId timeRange now).1 accountId =
      some { account with
             health_status := (determineHealthStatus e).status
             last_sync_time := now
             updated_at := now } ∧
    (∀ m, strContains m "fetch" = true →
      determineHealthStatus (.typeError m) = { status := "error", message := "网络连接失败" }) ∧
    (∀ m c ep, c ≠ 0 →
      (determineHealthStatus (.apiError m (some c) ep)).status = "warning") ∧
    (∀ m ep, (determineHealthStatus (.apiError m none ep)).status = "unknown") ∧
    (∀ m, strContains m "fetch" = false →
      (determineHealthStatus (.typeError m)).status = "unknown") ∧
    (∀ m, (determineHealthStatus (.error m)).status = "unknown") := by
  have hmain :
      AccountManager.refreshAccount getAdapter st accountId timeRange now =
        ((updateAccount st accountId
          { emptyAccountUpdate with
            health_status := some (determineHealthStatus e).status
            last_sync_time := some now } now).1, false) := by
    cases hbc : buildCredentialsFromStoredAccount account with
    | error e0 =>
        have he : e0 = e := by
          simpa [refreshFetchError, hbc] using herr
        subst he
        simp [AccountManager.refreshAccount, hacct, hadapter, hbc, refreshFailure]
    | ok credentials =>
        cases hbal : (runBalanceFetch adapter credentials).1 with
        | error e0 =>
            have he : e0 = e := by
              simpa [refreshFetchError, hbc, hbal] using herr
            subst he
            simp [AccountManager.refreshAccount, hacct, hadapter, hbc, hbal, refreshFailure]
        | ok balance =>
            cases husage : (runUsageFetch adapter credentials timeRange).1 with
            | error e0 =>
                have he : e0 = e := by
                  simpa [refreshFetchError, hbc, hbal, husage] using herr
                subst he
                simp [AccountManager.refreshAccount, hacct, hadapter, hbc, hbal, husage,
                  refreshFailure]
            | ok usage =>
                simp [refreshFetchError, hbc, hbal, husage] at herr
  refine ⟨hmain, ?_, ?_, ?_, ?_, ?_, ?_⟩
  · rw [hmain]
    simp only [getAccountById_updateAccount, hacct, Option.map_some]
    rfl
  · intro m hm
    simp [determineHealthStatus, hm]
  · intro m c ep hc
    simp [determineHealthStatus, hc]
  · intro m ep
    simp [determineHealthStatus]
  · intro m hm
    simp [determineHealthStatus, hm, jsOrStr]
  · intro m
    simp [determineHealthStatus, jsOrStr]

/-- Witness for C2: a network-failing quota fetch (`TypeError` mentioning
`fetch`) leaves the stored `account_info` (quota 123) untouched and flips
only `health_status` (to `"error"`) and `last_sync_time`. -/
theorem claim_C2_refresh_failure_preserves_data_witness :
    AccountManager.refreshAccount c2GetAdapter c2Storage "a1" { start := 0, stop := 0 } 99 =
      ({ accounts := [{ c2Account with
          health_status := "error", last_sync_time := 99, updated_at := 99 }] }, false) ∧
    getAccountById
        (AccountManager.refreshAccount c2GetAdapter c2Storage "a1" { start := 0, stop := 0 } 99).1 "a1" =
      some { c2Account with health_status := "error", last_sync_time := 99, updated_at := 99 } := by
  obtain ⟨h1, h2, -⟩ := claim_C2_refresh_failure_preserves_data c2GetAdapter c2Storage "a1"
    { start := 0, stop := 0 } 99 c2Account (oneApiFullAdapter c2Server)
    (.typeError "Failed to fetch") (by decide) rfl (by decide)
  constructor
  · rw [h1]; decide
  · rw [h2]; decide

/-- Claim C8: `autoDetectAccount` resolves the effective site type (explicit
non-empty, non-"auto" value trimmed and lower-cased; otherwise the
registry's detection result with `"one-api"` fallback), fails with
`{success:false, error}` when the resolved adapter is missing or lacks
AUTO_DETECT, normalizes adapter exceptions and adapter-level failures to
`{success:false, error, detailedError}` (the embedding is a total function,
so it never throws), and on success tags the adapter's data with the
resolved site type. -/
theorem claim_C8_autoDetect_resolution (env : ManagerEnv) (siteUrl : String)
    (siteType : Option String) :
    (strTrim siteUrl = "" → AccountManager.autoDetectAccount env siteUrl siteType =
      { success := false, data := none, error := some "站点地址不能为空", detailedError := none }) ∧
    (∀ n, n = strToLower (strTrim (siteType.getD "")) → n ≠ "" → n ≠ "auto" →
      resolveSiteType env.detectSiteType (strTrim siteUrl) siteType = n) ∧
    ((strToLower (strTrim (siteType.getD "")) = "" ∨ strToLower (strTrim (siteType.getD "")) = "auto") →
      resolveSiteType env.detectSiteType (strTrim siteUrl) siteType =
        jsOrStr (env.detectSiteType (strTrim siteUrl)) "one-api") ∧
    (strTrim siteUrl ≠ "" →
      (env.getAdapter (resolveSiteType env.detectSiteType (strTrim siteUrl) siteType) = none →
        AccountManager.autoDetectAccount env siteUrl siteType =
          { success := false, data := none
            error := some ("不支持的站点类型: " ++
              resolveSiteType env.detectSiteType (strTrim siteUrl) siteType)
            detailedError := none }) ∧
      (∀ adapter, env.getAdapter (resolveSiteType env.detectSiteType (strTrim siteUrl) siteType) =
          some adapter →
        ((adapter.autoDetectAccount = none ∨
            adapter.metadata.capabilities.contains .AUTO_DETECT = false) →
          AccountManager.autoDetectAccount env siteUrl siteType =
            { success := false, data := none
              error := some ("站点类型 \x27" ++
                resolveSiteType env.detectSiteType (strTrim siteUrl) siteType ++ "\x27 不支持自动识别")
              detailedError := none }) ∧
        (∀ detect, adapter.autoDetectAccount = some detect →
          adapter.metadata.capabilities.contains .AUTO_DETECT = true →
          (∀ e, detect (strTrim siteUrl) = .thrown e →
            AccountManager.autoDetectAccount env siteUrl siteType =
              { success := false, data := none
                error := some ("自动识别失败: " ++ e.message)
                detailedError := some (env.analyzeErr e) }) ∧
          (∀ r, detect (strTrim siteUrl) = .resolved r → r.success = false →
            AccountManager.autoDetectAccount env siteUrl siteType =
              { success := false, data := none
                error := some (jsOrStr r.error "自动检测失败")
                detailedError :=
                  some (r.detailedError.getD (env.analyzeStr (jsOrStr r.error "自动检测失败"))) }) ∧
          (∀ r, detect (strTrim siteUrl) = .resolved r → r.success = true →
            AccountManager.autoDetectAccount env siteUrl siteType =
              { success := true
                data := r.data.map (fun d =>
                  { username := d.username, accessToken := d.accessToken, userId := d.userId
                    exchangeRate := d.exchangeRate
                    siteType := some (resolveSiteType env.detectSiteType (strTrim siteUrl) siteType) })
                error := none, detailedError := none })))) := by
  refine ⟨?_, ?_, ?_, ?_⟩
  · intro hurl
    simp [AccountManager.autoDetectAccount, hurl]
  · intro n hn hne hna
    subst hn
    simp only [resolveSiteType]
    rw [if_pos ⟨hne, hna⟩]
  · intro hcase
    simp only [resolveSiteType]
    rw [if_neg]
    push_neg
    intro hne
    rcases hcase with h | h
    · exact absurd h hne
    · exact h
  · intro hurl
    constructor
    · intro hga
      simp [AccountManager.autoDetectAccount, hurl, hga]
    · intro adapter hga
      constructor
      · intro hmiss
        rcases hmiss with hnone | hcap
        · simp [AccountManager.autoDetectAccount, hurl, hga, hnone]
        · cases hdet : adapter.autoDetectAccount with
          | none => simp [AccountManager.autoDetectAccount, hurl, hga, hdet]
          | some detect =>
              have hmem : AdapterCapability.AUTO_DETECT ∉ adapter.metadata.capabilities := by
                simpa using hcap
              simp [AccountManager.autoDetectAccount, hurl, hga, hdet, hmem]
      · intro detect hdet hcap
        have hmem : AdapterCapability.AUTO_DETECT ∈ adapter.metadata.capabilities := by
          simpa using hcap
        refine ⟨?_, ?_, ?_⟩
        · intro e he
          simp [AccountManager.autoDetectAccount, hurl, hga, hdet, hmem, he]
        · intro r hr hfail
          simp [AccountManager.autoDetectAccount, hurl, hga, hdet, hmem, hr, hfail]
        · intro r hr hsucc
          simp [AccountManager.autoDetectAccount, hurl, hga, hdet, hmem, hr, hsucc]

/-- Witness for C8: a throwing adapter probe is normalized into a
`{success:false, error, detailedError}` result with the resolved
(detection-fallback) site type `"one-api"`. -/
theorem claim_C8_autoDetect_resolution_witness :
    resolveSiteType c8Env.detectSiteType (strTrim " https://x.example ") (some "auto") = "one-api" ∧
    AccountManager.autoDetectAccount c8Env " https://x.example " (some "auto") =
      { success := false, data := none
        error := some "自动识别失败: boom", detailedError := some "boom" } := by
  have h := claim_C8_autoDetect_resolution c8Env " https://x.example " (some "auto")
  constructor
  · have := h.2.2.1 (by decide)
    rw [this]
    decide
  · have hthrown := (((h.2.2.2 (by decide)).2 c8Adapter rfl).2 (fun _ => .thrown (.error "boom"))
      rfl (by decide)).1 (.error "boom") rfl
    rw [hthrown]
    decide

lemma jsParseFloat_72 : jsParseFloat "7.2" = some (7.2 : ℚ) := by
  rw [jsParseFloat, show "7.2".toList.dropWhile Char.isWhitespace = "7.2".toList from rfl,
    parseDecimal, show parseDecimalParts "7.2".toList = some ⟨false, ['7'], ['2'], 0, []⟩ from by decide]
  norm_num [decimalValue, show digitsVal ['7'] = 7 from by decide,
    show digitsVal ['2'] = 2 from by decide]

/-- Claim C10: in `validateAndSaveAccount` and `validateAndUpdateAccount`
the `exchangeRate` param is `parseFloat`-parsed and a `NaN` or `0` result
(including the empty string and non-numeric text) is silently replaced by
the default `7.2` before persisting: the whole call behaves identically to
the same call with `exchangeRate = "7.2"`, and no validation error is
reported. -/
theorem claim_C10_exchange_rate_default (env : ManagerEnv) (st : Storage) (now : ℕ)
    (timeRange : TimeRange) (newId accountId : String) (params : ValidateAndSaveParams)
    (h : jsParseFloat params.exchangeRate = none ∨ jsParseFloat params.exchangeRate = some 0) :
    jsOrNum (jsParseFloat params.exchangeRate) 7.2 = 7.2 ∧
    validateAndSaveAccount env st now timeRange newId params =
      validateAndSaveAccount env st now timeRange newId { params with exchangeRate := "7.2" } ∧
    validateAndUpdateAccount env st now timeRange accountId params =
      validateAndUpdateAccount env st now timeRange accountId { params with exchangeRate := "7.2" } ∧
    jsParseFloat "" = none ∧ jsParseFloat "abc" = none := by
  have her : jsOrNum (jsParseFloat params.exchangeRate) 7.2 = 7.2 := by
    rcases h with h | h <;> simp [jsOrNum, h]
  have h72 : jsOrNum (jsParseFloat "7.2") 7.2 = 7.2 := by
    rw [jsParseFloat_72]
    norm_num [jsOrNum]
  refine ⟨her, ?_, ?_, by decide, by decide⟩
  · simp only [validateAndSaveAccount,
      show ∀ a u, buildCredentialsFromParams a u { params with exchangeRate := "7.2" } =
        buildCredentialsFromParams a u params from fun _ _ => rfl,
      her, h72]
  · simp only [validateAndUpdateAccount,
      show ∀ a u, buildCredentialsFromParams a u { params with exchangeRate := "7.2" } =
        buildCredentialsFromParams a u params from fun _ _ => rfl,
      her, h72]

/-- Witness for C10 at `exchangeRate = "abc"`: the unparseable rate is
replaced by 7.2 and both flows behave as if `"7.2"` had been supplied. -/
theorem claim_C10_exchange_rate_default_witness :
    jsOrNum (jsParseFloat c10Params.exchangeRate) 7.2 = 7.2 ∧
    validateAndSaveAccount c10Env { accounts := [] } 0 { start := 0, stop := 0 } "n1" c10Params =
      validateAndSaveAccount c10Env { accounts := [] } 0 { start := 0, stop := 0 } "n1"
        { c10Params with exchangeRate := "7.2" } ∧
    jsParseFloat "" = none ∧ jsParseFloat "abc" = none := by
  have h := claim_C10_exchange_rate_default c10Env { accounts := [] } 0 { start := 0, stop := 0 }
    "n1" "a1" c10Params (Or.inl (by decide))
  exact ⟨h.1, h.2.1, h.2.2.2⟩

/-- Claim C9: whenever the resolved site type is one of the OneApi family's
(non-cubence) site types and the params carry a non-empty `apiKey`, the
manager builds api-key credentials, the OneApi adapter (the only adapter
serving those types) rejects them in `validateConnection`, and both
`validateAndSaveAccount` and `validateAndUpdateAccount` return
`{success:false}` with the adapter's kind-mismatch message — with zero
adapter network requests and the storage unchanged. -/
theorem claim_C9_apikey_kind_mismatch (server : OneApiServer) (cub : CubenceEnv)
    (det : String → Option String) (aStr : String → String) (aErr : JsError → String)
    (st : Storage) (now : ℕ) (timeRange : TimeRange) (newId accountId : String)
    (params : ValidateAndSaveParams)
    (hurl : strTrim params.url ≠ "") (hname : strTrim params.siteName ≠ "")
    (hid : accountId ≠ "")
    (hkey : jsOrStr (params.apiKey.map strTrim) "" ≠ "")
    (htype : normalizeSiteType (resolveSiteType det (strTrim params.url) params.siteType) ∈
      oneApiMetadata.supportedSiteTypes) :
    validateAndSaveAccount
        { getAdapter := builtinGetAdapter server cub, detectSiteType := det
          analyzeStr := aStr, analyzeErr := aErr } st now timeRange newId params =
      ({ success := false, accountId := none, error := some oneApiKindMismatchMsg }, st, 0) ∧
    validateAndUpdateAccount
        { getAdapter := builtinGetAdapter server cub, detectSiteType := det
          analyzeStr := aStr, analyzeErr := aErr } st now timeRange accountId params =
      ({ success := false, accountId := none, error := some oneApiKindMismatchMsg }, st, 0) := by
  have hga : builtinGetAdapter server cub
      (resolveSiteType det (strTrim params.url) params.siteType) =
      some (oneApiFullAdapter server) := by
    rw [builtinGetAdapter]
    simp only [htype, if_true]
  have hbc : buildCredentialsFromParams (oneApiFullAdapter server).metadata.id
      (strTrim params.url) params =
      .ok ({ siteUrl := strTrim params.url
             auth := .apiKey (jsOrStr (params.apiKey.map strTrim) "") },
           strTrim params.username,
           { id := none, access_token := none
             api_key := some (jsOrStr (params.apiKey.map strTrim) "") }) := by
    rw [buildCredentialsFromParams]
    simp only [oneApiFullAdapter, oneApiMetadata]
    rw [if_neg (by decide), if_pos hkey]
  have hval : (oneApiFullAdapter server).validateConnection
      { siteUrl := strTrim params.url
        auth := .apiKey (jsOrStr (params.apiKey.map strTrim) "") } =
      ({ ok := false, message := some oneApiKindMismatchMsg, details := none }, 0) := rfl
  have hmsg : jsOrStr (some oneApiKindMismatchMsg) "账号连接验证失败" = oneApiKindMismatchMsg := by
    decide
  constructor
  · rw [validateAndSaveAccount]
    rw [if_neg (by simp [hurl, hname])]
    simp only [hga, hbc, hval, hmsg]
    rw [if_pos (by decide)]
  · rw [validateAndUpdateAccount]
    rw [if_neg hid]
    rw [if_neg (by simp [hurl, hname])]
    simp only [hga, hbc, hval, hmsg]
    rw [if_pos (by decide)]

/-- Witness for C9: saving and updating with an api-key param against a
OneApi-family site type both fail with the adapter's kind-mismatch message,
leaving the (empty) storage unchanged and issuing no network request. -/
theorem claim_C9_apikey_kind_mismatch_witness :
    validateAndSaveAccount
        { getAdapter := builtinGetAdapter c9Server c9CubenceEnv
          detectSiteType := fun _ => none
          analyzeStr := fun s => s, analyzeErr := fun e => e.message }
        { accounts := [] } 0 { start := 0, stop := 0 } "n1" c9Params =
      ({ success := false, accountId := none, error := some oneApiKindMismatchMsg },
       { accounts := [] }, 0) ∧
    validateAndUpdateAccount
        { getAdapter := builtinGetAdapter c9Server c9CubenceEnv
          detectSiteType := fun _ => none
          analyzeStr := fun s => s, analyzeErr := fun e => e.message }
        { accounts := [] } 0 { start := 0, stop := 0 } "a1" c9Params =
      ({ success := false, accountId := none, error := some oneApiKindMismatchMsg },
       { accounts := [] }, 0) :=
  claim_C9_apikey_kind_mismatch c9Server c9CubenceEnv (fun _ => none) (fun s => s)
    (fun e => e.message) { accounts := [] } 0 { start := 0, stop := 0 } "n1" "a1" c9Params
    (by decide) (by decide) (by decide) (by decide) (by decide)

lemma assertCaps_ok_iff (a : AdapterShape) :
    assertCapabilitiesImplemented a = .ok () ↔ capabilityMissing a = false := by
  rw [assertCapabilitiesImplemented, capabilityMissing]
  split_ifs with h1 h2 h3 h4 h5 h6 <;> simp_all

lemma assertCaps_error_iff (a : AdapterShape) :
    (∃ e, assertCapabilitiesImplemented a = .error e) ↔ capabilityMissing a = true := by
  rcases h : assertCapabilitiesImplemented a with e | u
  · constructor
    · intro _
      by_contra hc
      have := (assertCaps_ok_iff a).mpr (by simpa using hc)
      rw [h] at this
      exact absurd this (by simp)
    · intro _
      exact ⟨e, rfl⟩
  · obtain ⟨⟩ := u
    constructor
    · rintro ⟨e, he⟩
      exact absurd he (by simp)
    · intro hc
      have := (assertCaps_ok_iff a).mp h
      simp_all

lemma alookup_append_of_none {α : Type} (k : String) (l₁ l₂ : List (String × α))
    (h : alookup k l₁ = none) : alookup k (l₁ ++ l₂) = alookup k l₂ := by
  induction l₁ with
  | nil => rfl
  | cons p rest ih =>
      obtain ⟨k', v⟩ := p
      by_cases hk : k' = k
      · simp [alookup, hk] at h
      · rw [List.cons_append, alookup, if_neg hk]
        refine ih ?_
        rw [alookup, if_neg hk] at h
        exact h

lemma alookup_append_of_some {α : Type} (k : String) (l₁ l₂ : List (String × α)) (v : α)
    (h : alookup k l₁ = some v) : alookup k (l₁ ++ l₂) = some v := by
  induction l₁ with
  | nil => simp [alookup] at h
  | cons p rest ih =>
      obtain ⟨k', w⟩ := p
      by_cases hk : k' = k
      · rw [alookup, if_pos hk] at h
        rw [List.cons_append, alookup, if_pos hk]
        exact h
      · rw [alookup, if_neg hk] at h
        rw [List.cons_append, alookup, if_neg hk]
        exact ih h

lemma alookup_append_single_none_iff {α : Type} (k n : String) (v : α)
    (m : List (String × α)) :
    alookup k (m ++ [(n, v)]) = none ↔ alookup k m = none ∧ n ≠ k := by
  induction m with
  | nil =>
      simp only [List.nil_append, alookup]
      by_cases hk : n = k <;> simp [hk]
  | cons p rest ih =>
      obtain ⟨k', w⟩ := p
      rw [List.cons_append, alookup, alookup]
      by_cases hk : k' = k <;> simp [hk, ih]

lemma registerSiteTypes_ok_iff (a : AdapterShape) :
    ∀ (ts : List String) (m : List (String × AdapterShape)),
      (∃ m', registerSiteTypes a ts m = .ok m') ↔
        ((∀ t ∈ ts, alookup (normalizeSiteType t) m = none) ∧
          (ts.map normalizeSiteType).Nodup)
  | [], m => by simp [registerSiteTypes]
  | t :: rest, m => by
      rw [registerSiteTypes]
      cases hl : alookup (normalizeSiteType t) m with
      | some existing =>
          simp only []
          constructor
          · rintro ⟨m', hm'⟩
            exact absurd hm' (by simp)
          · rintro ⟨hall, -⟩
            have := hall t (by simp)
            simp [this] at hl
      | none =>
          simp only []
          rw [registerSiteTypes_ok_iff a rest (m ++ [(normalizeSiteType t, a)])]
          constructor
          · rintro ⟨hall, hnd⟩
            constructor
            · intro u hu
              rcases List.mem_cons.mp hu with hequ | humem
              · subst hequ
                exact hl
              · exact ((alookup_append_single_none_iff _ _ _ _).mp (hall u humem)).1
            · rw [List.map_cons, List.nodup_cons]
              refine ⟨?_, hnd⟩
              intro hmem
              rw [List.mem_map] at hmem
              obtain ⟨u, hu, hequ⟩ := hmem
              exact ((alookup_append_single_none_iff _ _ _ _).mp (hall u hu)).2 hequ.symm
          · rintro ⟨hall, hnd⟩
            rw [List.map_cons, List.nodup_cons] at hnd
            refine ⟨fun u hu => ?_, hnd.2⟩
            rw [alookup_append_single_none_iff]
            refine ⟨hall u (List.mem_cons_of_mem _ hu), ?_⟩
            intro hequ
            exact hnd.1 (hequ ▸ List.mem_map_of_mem _ hu)

lemma registerSiteTypes_lookup (a : AdapterShape) :
    ∀ (ts : List String) (m m' : List (String × AdapterShape)),
      registerSiteTypes a ts m = .ok m' →
        (∀ k v, alookup k m = some v → alookup k m' = some v) ∧
        (∀ t ∈ ts, alookup (normalizeSiteType t) m' = some a)
  | [], m, m', h => by
      rw [registerSiteTypes] at h
      simp only [Except.ok.injEq] at h
      subst h
      exact ⟨fun k v hv => hv, by simp⟩
  | t :: rest, m, m', h => by
      rw [registerSiteTypes] at h
      cases hl : alookup (normalizeSiteType t) m with
      | some existing => rw [hl] at h; exact absurd h (by simp)
      | none =>
          rw [hl] at h
          obtain ⟨hpres, hall⟩ := registerSiteTypes_lookup a rest
            (m ++ [(normalizeSiteType t, a)]) m' h
          constructor
          · intro k v hv
            exact hpres k v (alookup_append_of_some _ _ _ _ hv)
          · intro u hu
            rcases List.mem_cons.mp hu with hequ | humem
            · subst hequ
              refine hpres _ _ ?_
              rw [alookup_append_of_none _ _ _ hl, alookup, if_pos rfl]
            · exact hall u humem

/-- Counterexample to C1 as stated: registering an adapter whose own
`supportedSiteTypes` normalize to a duplicate key (`["x", "X "]`) into an
empty registry throws an `AdapterRegistrationError`, although none of the
claim's four conditions holds (no site type is claimed by a *previously
registered* adapter). -/
theorem claim_C1_register_iff_counterexample :
    ¬(registerThrows emptyRegistry c1DupAdapter = true ↔
      c1ClaimedThrowCondition emptyRegistry c1DupAdapter) := by decide

/-- Claim C1 (amended): `registerAdapter` throws an
`AdapterRegistrationError` iff the id is empty, the id is already
registered, some normalized site type is already claimed, a declared
capability lacks its method(s), **or the adapter's own `supportedSiteTypes`
contain duplicates after normalization**; on success the adapter is
recorded under its id and all its site-type keys. -/
theorem claim_C1_register_iff_amended (st : RegistryState) (adapter : AdapterShape) :
    (registerThrows st adapter = true ↔
      (c1ClaimedThrowCondition st adapter ∨
        ¬(adapter.metadata.supportedSiteTypes.map normalizeSiteType).Nodup)) ∧
    (∀ st', registerAdapter st adapter = .ok st' →
      alookup adapter.metadata.id st'.adaptersById = some adapter ∧
      ∀ t ∈ adapter.metadata.supportedSiteTypes,
        alookup (normalizeSiteType t) st'.adaptersBySiteType = some adapter) := by
  constructor
  · by_cases hid : adapter.metadata.id = ""
    · have hthrow : registerThrows st adapter = true := by
        rw [registerThrows, registerAdapter]
        simp [hid]
      rw [hthrow]
      simp only [true_iff]
      exact Or.inl (Or.inl hid)
    · cases hcap : assertCapabilitiesImplemented adapter with
      | error e =>
          have hmiss : capabilityMissing adapter = true :=
            (assertCaps_error_iff adapter).mp ⟨e, hcap⟩
          have hthrow : registerThrows st adapter = true := by
            rw [registerThrows, registerAdapter]
            simp [hid, hcap]
          rw [hthrow]
          simp only [true_iff]
          exact Or.inl (Or.inr (Or.inr (Or.inr hmiss)))
      | ok u =>
          obtain ⟨⟩ := u
          have hcapf : capabilityMissing adapter = false := (assertCaps_ok_iff adapter).mp hcap
          by_cases hdup : (alookup adapter.metadata.id st.adaptersById).isSome
          · have hthrow : registerThrows st adapter = true := by
              rw [registerThrows, registerAdapter]
              simp [hid, hcap, hdup]
            rw [hthrow]
            simp only [true_iff]
            exact Or.inl (Or.inr (Or.inl hdup))
          · cases hreg : registerSiteTypes adapter adapter.metadata.supportedSiteTypes
                st.adaptersBySiteType with
            | error e =>
                have hthrow : registerThrows st adapter = true := by
                  rw [registerThrows, registerAdapter]
                  simp [hid, hcap, hdup, hreg]
                rw [hthrow]
                simp only [true_iff]
                have hnok : ¬((∀ t ∈ adapter.metadata.supportedSiteTypes,
                    alookup (normalizeSiteType t) st.adaptersBySiteType = none) ∧
                    (adapter.metadata.supportedSiteTypes.map normalizeSiteType).Nodup) := by
                  rw [← registerSiteTypes_ok_iff]
                  rintro ⟨m', hm'⟩
                  rw [hreg] at hm'
                  exact absurd hm' (by simp)
                rw [not_and_or] at hnok
                rcases hnok with hna | hnb
                · push_neg at hna
                  obtain ⟨t, ht, hne⟩ := hna
                  refine Or.inl (Or.inr (Or.inr (Or.inl ⟨t, ht, ?_⟩)))
                  rwa [← Option.ne_none_iff_isSome]
                · exact Or.inr hnb
            | ok bySite =>
                have hthrow : registerThrows st adapter = false := by
                  rw [registerThrows, registerAdapter]
                  simp [hid, hcap, hdup, hreg]
                rw [hthrow]
                have hok := (registerSiteTypes_ok_iff adapter _ _).mp ⟨bySite, hreg⟩
                constructor
                · intro h
                  exact absurd h (by simp)
                · rintro (hclaim | hnd)
                  · rcases hclaim with h | h | h | h
                    · exact absurd h hid
                    · exact absurd h hdup
                    · obtain ⟨t, ht, hsome⟩ := h
                      rw [hok.1 t ht] at hsome
                      exact absurd hsome (by simp)
                    · rw [hcapf] at h
                      exact absurd h (by simp)
                  · exact absurd hok.2 hnd
  · intro st' hst'
    rw [registerAdapter] at hst'
    by_cases hid : adapter.metadata.id = ""
    · rw [if_pos hid] at hst'
      exact absurd hst' (by simp)
    · rw [if_neg hid] at hst'
      cases hcap : assertCapabilitiesImplemented adapter with
      | error e => rw [hcap] at hst'; exact absurd hst' (by simp)
      | ok u =>
          obtain ⟨⟩ := u
          rw [hcap] at hst'
          by_cases hdup : (alookup adapter.metadata.id st.adaptersById).isSome
          · rw [if_pos hdup] at hst'
            exact absurd hst' (by simp)
          · rw [if_neg hdup] at hst'
            cases hreg : registerSiteTypes adapter adapter.metadata.supportedSiteTypes
                st.adaptersBySiteType with
            | error e => rw [hreg] at hst'; exact absurd hst' (by simp)
            | ok bySite =>
                rw [hreg] at hst'
                simp only [Except.ok.injEq] at hst'
                subst hst'
                constructor
                · have hnone : alookup adapter.metadata.id st.adaptersById = none := by
                    rcases h : alookup adapter.metadata.id st.adaptersById with _ | v
                    · rfl
                    · rw [h] at hdup
                      exact absurd (by simp) hdup
                  rw [alookup_append_of_none _ _ _ hnone, alookup, if_pos rfl]
                · exact (registerSiteTypes_lookup adapter _ _ _ hreg).2

/-- Witness for C1 (amended): successfully registering a fresh adapter
records it under its id and both of its site-type keys. -/
theorem claim_C1_register_iff_amended_witness :
    alookup c1GoodAdapter.metadata.id c1GoodState.adaptersById = some c1GoodAdapter ∧
    (∀ t ∈ c1GoodAdapter.metadata.supportedSiteTypes,
      alookup (normalizeSiteType t) c1GoodState.adaptersBySiteType = some c1GoodAdapter) :=
  (claim_C1_register_iff_amended emptyRegistry c1GoodAdapter).2 c1GoodState rfl

lemma aggregateUsageData_go (item : LogItem) (acc : UsageAgg) :
    ∀ n : ℕ, List.foldl
      (fun acc item =>
        { today_quota_consumption := acc.today_quota_consumption + jsOrNum item.quota 0
          today_prompt_tokens := acc.today_prompt_tokens + jsOrNum item.prompt_tokens 0
          today_completion_tokens := acc.today_completion_tokens + jsOrNum item.completion_tokens 0
          : UsageAgg })
      acc (List.replicate n item) =
      { today_quota_consumption := acc.today_quota_consumption + n * jsOrNum item.quota 0
        today_prompt_tokens := acc.today_prompt_tokens + n * jsOrNum item.prompt_tokens 0
        today_completion_tokens := acc.today_completion_tokens + n * jsOrNum item.completion_tokens 0 } := by
  intro n
  induction n generalizing acc with
  | zero => simp
  | succ n ih =>
      rw [List.replicate_succ, List.foldl_cons, ih]
      push_cast
      ring_nf

lemma aggregateUsageData_replicate (n : ℕ) (item : LogItem) :
    aggregateUsageData (List.replicate n item) =
      { today_quota_consumption := n * jsOrNum item.quota 0
        today_prompt_tokens := n * jsOrNum item.prompt_tokens 0
        today_completion_tokens := n * jsOrNum item.completion_tokens 0 } := by
  rw [aggregateUsageData, aggregateUsageData_go]
  simp

lemma aggregateUsageData_nil :
    aggregateUsageData [] =
      { today_quota_consumption := 0, today_prompt_tokens := 0, today_completion_tokens := 0 } := rfl

lemma fetchTodayUsageLoop_calls_le (logPage : ℕ → Except JsError LogPage) (fuel : ℕ) :
    ∀ (page : ℕ) (acc : UsageAgg) (req : ℕ),
      (fetchTodayUsageLoop logPage fuel page acc req).2 ≤ fuel := by
  induction fuel with
  | zero => intro page acc req; simp [fetchTodayUsageLoop]
  | succ fuel ih =>
      intro page acc req
      rw [fetchTodayUsageLoop]
      cases hp : logPage page with
      | error e => simp
      | ok logData =>
          dsimp only []
          split
          · simp
          · simpa using Nat.succ_le_succ (ih _ _ _)

lemma fetchTodayUsageLoop_ok (logPage : ℕ → Except JsError LogPage) (fuel : ℕ) :
    ∀ (page : ℕ) (acc : UsageAgg) (req : ℕ), (∀ p, ∃ pg, logPage p = .ok pg) →
      ∃ d, (fetchTodayUsageLoop logPage fuel page acc req).1 = .ok d := by
  induction fuel with
  | zero => intro page acc req _; exact ⟨_, rfl⟩
  | succ fuel ih =>
      intro page acc req h
      obtain ⟨pg, hpg⟩ := h page
      rw [fetchTodayUsageLoop, hpg]
      dsimp only []
      split
      · exact ⟨_, rfl⟩
      · exact ih _ _ _ h

lemma fetchTodayUsageLoop_stop (logPage : ℕ → Except JsError LogPage) (fuel : ℕ) :
    ∀ (page : ℕ) (acc : UsageAgg) (req : ℕ) (d : TodayUsageData) (c : ℕ),
      fetchTodayUsageLoop logPage fuel page acc req = (.ok d, c) → c < fuel →
      1 ≤ c ∧ ∃ pg, logPage (page + c - 1) = .ok pg ∧
        (((page + c - 1 : ℕ) : ℤ) ≥ ratCeil (jsOrNum pg.total 0 / (DEFAULT_PAGE_SIZE : ℚ))) := by
  induction fuel with
  | zero => intro page acc req d c _ hc; exact absurd hc (Nat.not_lt_zero c)
  | succ fuel ih =>
      intro page acc req d c heq hc
      rw [fetchTodayUsageLoop] at heq
      cases hp : logPage page with
      | error e => rw [hp] at heq; simp at heq
      | ok logData =>
          rw [hp] at heq
          dsimp only [] at heq
          by_cases hstop : ((page : ℤ) ≥ ratCeil (jsOrNum logData.total 0 / (DEFAULT_PAGE_SIZE : ℚ)))
          · rw [if_pos hstop] at heq
            have hc1 : c = 1 := (congrArg Prod.snd heq).symm
            subst hc1
            refine ⟨le_refl 1, logData, ?_, ?_⟩
            · simpa using hp
            · simpa using hstop
          · rw [if_neg hstop] at heq
            have hn1 : (fetchTodayUsageLoop logPage fuel (page + 1)
                { today_quota_consumption := acc.today_quota_consumption +
                    (aggregateUsageData (jsOrList logData.items)).today_quota_consumption
                  today_prompt_tokens := acc.today_prompt_tokens +
                    (aggregateUsageData (jsOrList logData.items)).today_prompt_tokens
                  today_completion_tokens := acc.today_completion_tokens +
                    (aggregateUsageData (jsOrList logData.items)).today_completion_tokens }
                (req + (jsOrList logData.items).length)).1 = .ok d := congrArg Prod.fst heq
            have hn2 : (fetchTodayUsageLoop logPage fuel (page + 1)
                { today_quota_consumption := acc.today_quota_consumption +
                    (aggregateUsageData (jsOrList logData.items)).today_quota_consumption
                  today_prompt_tokens := acc.today_prompt_tokens +
                    (aggregateUsageData (jsOrList logData.items)).today_prompt_tokens
                  today_completion_tokens := acc.today_completion_tokens +
                    (aggregateUsageData (jsOrList logData.items)).today_completion_tokens }
                (req + (jsOrList logData.items).length)).2 + 1 = c := congrArg Prod.snd heq
            set next := fetchTodayUsageLoop logPage fuel (page + 1)
                { today_quota_consumption := acc.today_quota_consumption +
                    (aggregateUsageData (jsOrList logData.items)).today_quota_consumption
                  today_prompt_tokens := acc.today_prompt_tokens +
                    (aggregateUsageData (jsOrList logData.items)).today_prompt_tokens
                  today_completion_tokens := acc.today_completion_tokens +
                    (aggregateUsageData (jsOrList logData.items)).today_completion_tokens }
                (req + (jsOrList logData.items).length) with hnext
            have hlt : next.2 < fuel := by omega
            have hpair : next = (.ok d, next.2) := by
              rw [← hn1]
            obtain ⟨h1le, pg, hpg, hge⟩ := ih (page + 1) _ _ d next.2 hpair hlt
            refine ⟨by omega, pg, ?_, ?_⟩
            · have harith : page + 1 + next.2 - 1 = page + c - 1 := by omega
              rwa [harith] at hpg
            · have harith : page + 1 + next.2 - 1 = page + c - 1 := by omega
              rwa [harith] at hge

/-- Counterexample to C3's general stop rule: against a server reporting
`total = 250` but returning empty pages, the loop still stops after 3 page
requests — the page *index* reached `ceil(total / 100) = 3` — although the
accumulated item count (0) never reaches the reported total (250) and the
100-page cap is not hit; so "pagination stops when the accumulated item
count reaches the server-reported total or after the page cap" is false of
the code. -/
theorem claim_C3_pagination_counterexample :
    fetchTodayUsage c3EmptyServer =
      (.ok { today_quota_consumption := 0, today_prompt_tokens := 0,
             today_completion_tokens := 0, today_requests_count := 0 }, 3) ∧
    ¬(∀ (d : TodayUsageData) (c : ℕ), fetchTodayUsage c3EmptyServer = (.ok d, c) →
        (c = MAX_PAGES ∨ (d.today_requests_count : ℚ) = jsOrNum c3EmptyPage.total 0)) := by
  have h3 : fetchTodayUsageLoop c3EmptyServer 98 3
      { today_quota_consumption := 0, today_prompt_tokens := 0, today_completion_tokens := 0 } 0 =
      (.ok { today_quota_consumption := 0, today_prompt_tokens := 0,
             today_completion_tokens := 0, today_requests_count := 0 }, 1) := by
    rw [show (98 : ℕ) = 97 + 1 from rfl, fetchTodayUsageLoop,
      show c3EmptyServer 3 = Except.ok c3EmptyPage from rfl]
    simp only [c3EmptyPage, jsOrList, aggregateUsageData_nil]
    norm_num [ratCeil, ratFloor, DEFAULT_PAGE_SIZE, jsOrNum]
  have h2 : fetchTodayUsageLoop c3EmptyServer 99 2
      { today_quota_consumption := 0, today_prompt_tokens := 0, today_completion_tokens := 0 } 0 =
      (.ok { today_quota_consumption := 0, today_prompt_tokens := 0,
             today_completion_tokens := 0, today_requests_count := 0 }, 2) := by
    rw [show (99 : ℕ) = 98 + 1 from rfl, fetchTodayUsageLoop,
      show c3EmptyServer 2 = Except.ok c3EmptyPage from rfl]
    simp only [c3EmptyPage, jsOrList, aggregateUsageData_nil]
    norm_num [ratCeil, ratFloor, DEFAULT_PAGE_SIZE, jsOrNum, h3]
  have heval : fetchTodayUsage c3EmptyServer =
      (.ok { today_quota_consumption := 0, today_prompt_tokens := 0,
             today_completion_tokens := 0, today_requests_count := 0 }, 3) := by
    rw [fetchTodayUsage, show (MAX_PAGES : ℕ) = 99 + 1 from rfl, fetchTodayUsageLoop,
      show c3EmptyServer 1 = Except.ok c3EmptyPage from rfl]
    simp only [c3EmptyPage, jsOrList, aggregateUsageData_nil]
    norm_num [ratCeil, ratFloor, DEFAULT_PAGE_SIZE, jsOrNum, h2]
  refine ⟨heval, ?_⟩
  intro h
  rcases h _ _ heval with hc | hr
  · exact absurd hc (by decide)
  · rw [show jsOrNum c3EmptyPage.total 0 = 250 from by norm_num [c3EmptyPage, jsOrNum]] at hr
    norm_num at hr

/-- Claim C3 (amended): against a server reporting `total = 250` items at
page size 100 (full pages), the usage fetch issues exactly 3 page requests,
sums `quota` / `prompt_tokens` / `completion_tokens` across the pages and
reports `requestCount = 250`; in general the loop makes at most
`MAX_PAGES = 100` page requests, reaching the cap terminates silently with
the partial sums rather than failing the call, and a run that stops before
the cap stopped because **the page index reached
`ceil(server-reported total / 100)`** (with full pages this coincides with
the accumulated item count reaching the total). -/
theorem claim_C3_pagination_amended (logPage : ℕ → Except JsError LogPage) :
    fetchTodayUsage c3Server250 =
      (.ok { today_quota_consumption := 250, today_prompt_tokens := 500,
             today_completion_tokens := 750, today_requests_count := 250 }, 3) ∧
    (fetchTodayUsage logPage).2 ≤ MAX_PAGES ∧
    ((∀ p, ∃ pg, logPage p = .ok pg) → ∃ d, (fetchTodayUsage logPage).1 = .ok d) ∧
    (∀ (d : TodayUsageData) (c : ℕ), fetchTodayUsage logPage = (.ok d, c) → c < MAX_PAGES →
      1 ≤ c ∧ ∃ pg, logPage c = .ok pg ∧
        ((c : ℤ) ≥ ratCeil (jsOrNum pg.total 0 / (DEFAULT_PAGE_SIZE : ℚ)))) := by
  refine ⟨?_, ?_, ?_, ?_⟩
  · have h3 : fetchTodayUsageLoop c3Server250 98 3
        { today_quota_consumption := 200, today_prompt_tokens := 400, today_completion_tokens := 600 } 200 =
        (.ok { today_quota_consumption := 250, today_prompt_tokens := 500,
               today_completion_tokens := 750, today_requests_count := 250 }, 1) := by
      rw [show (98 : ℕ) = 97 + 1 from rfl, fetchTodayUsageLoop,
        show c3Server250 3 = Except.ok c3HalfPage from rfl]
      simp only [c3HalfPage, jsOrList, aggregateUsageData_replicate]
      norm_num [ratCeil, ratFloor, DEFAULT_PAGE_SIZE, jsOrNum, c3PageItem]
    have h2 : fetchTodayUsageLoop c3Server250 99 2
        { today_quota_consumption := 100, today_prompt_tokens := 200, today_completion_tokens := 300 } 100 =
        (.ok { today_quota_consumption := 250, today_prompt_tokens := 500,
               today_completion_tokens := 750, today_requests_count := 250 }, 2) := by
      rw [show (99 : ℕ) = 98 + 1 from rfl, fetchTodayUsageLoop,
        show c3Server250 2 = Except.ok c3FullPage from rfl]
      simp only [c3FullPage, jsOrList, aggregateUsageData_replicate]
      norm_num [ratCeil, ratFloor, DEFAULT_PAGE_SIZE, jsOrNum, c3PageItem, h3]
    rw [fetchTodayUsage, show (MAX_PAGES : ℕ) = 99 + 1 from rfl, fetchTodayUsageLoop,
      show c3Server250 1 = Except.ok c3FullPage from rfl]
    simp only [c3FullPage, jsOrList, aggregateUsageData_replicate]
    norm_num [ratCeil, ratFloor, DEFAULT_PAGE_SIZE, jsOrNum, c3PageItem, h2]
  · rw [fetchTodayUsage]
    exact fetchTodayUsageLoop_calls_le logPage MAX_PAGES 1 _ 0
  · intro h
    rw [fetchTodayUsage]
    exact fetchTodayUsageLoop_ok logPage MAX_PAGES 1 _ 0 h
  · intro d c heq hlt
    rw [fetchTodayUsage] at heq
    obtain ⟨h1, pg, hpg, hge⟩ := fetchTodayUsageLoop_stop logPage MAX_PAGES 1 _ 0 d c heq hlt
    have harith : 1 + c - 1 = c := by omega
    rw [harith] at hpg hge
    exact ⟨h1, pg, hpg, hge⟩

/-- Witness for C3 (amended) at the 250-item server: the call count is
within the cap, an all-ok server yields a successful result, and the run
stopped at page 3 because `3 ≥ ceil(250 / 100)`. -/
theorem claim_C3_pagination_amended_witness :
    (fetchTodayUsage c3Server250).2 ≤ MAX_PAGES ∧
    (∃ d, (fetchTodayUsage c3Server250).1 = .ok d) ∧
    (1 ≤ 3 ∧ ∃ pg, c3Server250 3 = .ok pg ∧
      (((3 : ℕ) : ℤ) ≥ ratCeil (jsOrNum pg.total 0 / (DEFAULT_PAGE_SIZE : ℚ)))) := by
  have h := claim_C3_pagination_amended c3Server250
  refine ⟨h.2.1, ?_, ?_⟩
  · refine h.2.2.1 (fun p => ⟨if p ≤ 2 then c3FullPage else c3HalfPage, ?_⟩)
    by_cases hp : p ≤ 2 <;> simp [c3Server250, hp]
  · exact h.2.2.2 _ 3 h.1 (by decide)
